import Mathlib

/-
Verification of the column-inference and chart-configuration engine of the
ChatGPTLike backend (src/backend/app/chart/chart_generator.py), as a shallow
embedding in Lean 4.

Modelling conventions:
* A pandas cell is `Option Cell`, where `none` stands for a missing value
  (NaN); `Cell` is a rational number or a string.  Columns carry their
  storage dtype: `ColData.numeric` for numeric dtype (all cells numbers),
  `ColData.obj` for object dtype (mixed cells).  Datetime columns, which the
  Python code only distinguishes when picking a line-chart x-axis (where
  object dtype qualifies in exactly the same way), are represented as object
  columns.
* Python floats are modelled as `Rat`.  The ratio thresholds
  `k/n > 0.8`, `k/n > 0.9` are transcribed as the integer inequalities
  `5*k > 4*n`, `10*k > 9*n`; for the sample sizes involved (n ≤ 20) the
  correctly rounded float comparison and the exact rational comparison
  agree, including at the boundary k/n = 4/5 (both reject).
* `pd.to_numeric(..., errors='coerce')` and Python's `float(str)` are
  modelled by one decimal parser `parseRat` (sign, digits, decimal point,
  exponent).  The exotic literals on which the two Python parsers differ
  ("inf", "nan", underscores) are treated as non-numeric; no behaviour
  formalised here feeds them to either parser.
* pandas raises on comparisons between numbers and strings during sorting;
  the embedding instead totalises the comparison (numbers before strings).
  Every sort performed below either happens on homogeneous data (where the
  order agrees with pandas) or its result is only inspected through
  properties that do not depend on the cross-type extension.
* Exceptions are `Except String`; the message text is kept close to, but not
  byte-identical with, the Python message.  No theorem depends on message
  text except for the fallback generator's "No data available for chart",
  which is transcribed verbatim.
-/

namespace ChartGen

deriving instance DecidableEq for Except

/-- A non-missing spreadsheet cell: a number (any numeric dtype) or a string. -/
inductive Cell where
  | num (q : Rat)
  | str (s : String)
deriving DecidableEq, Repr

/-- Column storage, tagged with the pandas dtype:
`numeric` for numeric dtypes, `obj` for object dtype. -/
inductive ColData where
  | numeric (vals : List (Option Rat))
  | obj (vals : List (Option Cell))
deriving DecidableEq, Repr

/-- The in-memory dataset (`self.df`): ordered named columns plus the row
count (`len(self.df)` / `df.shape[0]`). -/
structure DataFrame where
  cols : List (String × ColData)
  nrows : Nat
deriving DecidableEq, Repr

/-- Number of cells stored in a column. -/
def ColData.size : ColData → Nat
  | .numeric vs => vs.length
  | .obj vs => vs.length

/-- Every column holds one cell per row. -/
def DataFrame.WellFormed (df : DataFrame) : Prop :=
  ∀ p ∈ df.cols, ColData.size p.2 = df.nrows

instance (df : DataFrame) : Decidable df.WellFormed := by
  unfold DataFrame.WellFormed; infer_instance

/-- `self.df.columns` (in order). -/
def DataFrame.colNames (df : DataFrame) : List String := df.cols.map Prod.fst

/-- `self.df[c]`: the first column named `c`, if any. -/
def DataFrame.lookupCol (df : DataFrame) (c : String) : Option ColData :=
  df.cols.lookup c

/-- `pd.api.types.is_numeric_dtype(self.df[c])`. -/
def DataFrame.isNumericDtype (df : DataFrame) (c : String) : Bool :=
  match df.lookupCol c with
  | some (.numeric _) => true
  | _ => false

/-- Object dtype test (used for the line chart's date-ish x-axis columns). -/
def DataFrame.isObjDtype (df : DataFrame) (c : String) : Bool :=
  match df.lookupCol c with
  | some (.obj _) => true
  | _ => false

/-- The cells of column `c`, uniformly as `Option Cell` (missing column: `[]`). -/
def DataFrame.colCells (df : DataFrame) (c : String) : List (Option Cell) :=
  match df.lookupCol c with
  | some (.numeric vs) => vs.map (fun v => v.map Cell.num)
  | some (.obj vs) => vs
  | none => []

/-- `self.df[c].dropna()` for a numeric-dtype column (`[]` otherwise). -/
def DataFrame.nonNullRats (df : DataFrame) (c : String) : List Rat :=
  match df.lookupCol c with
  | some (.numeric vs) => vs.filterMap id
  | _ => []

/- ---------------- String utilities (Python semantics) ----------------
The Lean core `String` functions go through `Substring`/byte-position
machinery that the kernel cannot evaluate, so the embedding re-implements
the few Python string operations it needs directly over `List Char`.  All
inputs exercised by the source are ASCII, for which these agree with
Python's `str.lower`, `str.strip`, `str.split`, `in`, `startswith`,
`endswith`. -/

/-- ASCII `str.lower` on one character. -/
def lowerChar (c : Char) : Char :=
  if 'A' ≤ c ∧ c ≤ 'Z' then Char.ofNat (c.toNat + 32) else c

/-- Python's `str.lower()` (ASCII). -/
def lowerStr (s : String) : String :=
  ⟨s.data.map lowerChar⟩

/-- Python's `str.strip()`: drop surrounding whitespace. -/
def trimStr (s : String) : String :=
  ⟨((s.data.dropWhile Char.isWhitespace).reverse.dropWhile Char.isWhitespace).reverse⟩

/-- `needle.isInfixOf hay` on character lists; embeds Python's `needle in hay`. -/
def listHasInfix (needle : List Char) : List Char → Bool
  | [] => needle.isEmpty
  | c :: rest => needle.isPrefixOf (c :: rest) || listHasInfix needle rest

/-- Python's `sub in s` (substring containment). -/
def strContainsSub (s sub : String) : Bool :=
  listHasInfix sub.data s.data

/-- Python's `str.startswith`. -/
def strStartsWith (s pre : String) : Bool :=
  pre.data.isPrefixOf s.data

/-- Python's `str.endswith`. -/
def strEndsWith (s post : String) : Bool :=
  post.data.isSuffixOf s.data

/-- Splitter on a non-empty separator; the fuel is the input length (each
step consumes at least one character). -/
def splitOnCharsFuel (sep : List Char) : Nat → List Char → List Char → List (List Char)
  | 0, _, acc => [acc.reverse]
  | _ + 1, [], acc => [acc.reverse]
  | n + 1, c :: rest, acc =>
    if sep ≠ [] ∧ sep.isPrefixOf (c :: rest) then
      acc.reverse :: splitOnCharsFuel sep n (List.drop (sep.length - 1) rest) []
    else splitOnCharsFuel sep n rest (c :: acc)

/-- Python's `s.split(sep)` for a non-empty separator. -/
def splitOnStr (s sep : String) : List String :=
  if sep.data = [] then [s]
  else (splitOnCharsFuel sep.data s.data.length s.data []).map fun l => ⟨l⟩

/-- Python's whitespace `str.split()` for space-separated text. -/
def pySplitWs (s : String) : List String :=
  (splitOnStr s " ").filter (fun w => w ≠ "")

/- ---------------- Kernel-evaluable rational arithmetic ----------------
Batteries marks `Rat.add`, `Rat.mul`, `Rat.sub` and `Rat.inv`
`@[irreducible]`, which blocks kernel evaluation (`decide`).  The embedding
therefore computes with equivalents built from `mkRat`, proved equal to the
standard operations below. -/

def ratAdd (a b : Rat) : Rat := mkRat (a.num * b.den + b.num * a.den) (a.den * b.den)

def ratMul (a b : Rat) : Rat := mkRat (a.num * b.num) (a.den * b.den)

def ratSub (a b : Rat) : Rat := ratAdd a (Rat.neg b)

def ratDiv (a b : Rat) : Rat :=
  Rat.divInt (a.num * b.den) (a.den * b.num)

def ratSum (l : List Rat) : Rat := l.foldl ratAdd 0

theorem ratAdd_eq (a b : Rat) : ratAdd a b = a + b := by
  unfold ratAdd
  rw [Rat.mkRat_eq_div]
  push_cast
  conv_rhs => rw [← Rat.num_div_den a, ← Rat.num_div_den b]
  have ha : ((a.den : Rat)) ≠ 0 := by exact_mod_cast a.den_nz
  have hb : ((b.den : Rat)) ≠ 0 := by exact_mod_cast b.den_nz
  field_simp

theorem ratMul_eq (a b : Rat) : ratMul a b = a * b := by
  unfold ratMul
  rw [Rat.mkRat_eq_div]
  push_cast
  conv_rhs => rw [← Rat.num_div_den a, ← Rat.num_div_den b]
  have ha : ((a.den : Rat)) ≠ 0 := by exact_mod_cast a.den_nz
  have hb : ((b.den : Rat)) ≠ 0 := by exact_mod_cast b.den_nz
  field_simp

theorem ratSub_eq (a b : Rat) : ratSub a b = a - b := by
  unfold ratSub
  rw [ratAdd_eq]
  have : Rat.neg b = -b := rfl
  rw [this]
  ring

theorem ratDiv_eq (a b : Rat) : ratDiv a b = a / b := by
  unfold ratDiv
  rw [Rat.divInt_eq_div]
  push_cast
  by_cases hb0 : b.num = 0
  · have hbz : b = 0 := Rat.num_eq_zero.mp hb0
    rw [hb0, hbz]
    simp
  · have ha : ((a.den : Rat)) ≠ 0 := by exact_mod_cast a.den_nz
    have hbd : ((b.den : Rat)) ≠ 0 := by exact_mod_cast b.den_nz
    have hbq : ((b.num : Rat)) ≠ 0 := by exact_mod_cast hb0
    conv_rhs => rw [← Rat.num_div_den a, ← Rat.num_div_den b]
    field_simp

/- ---------------- Numeric parsing (float / pd.to_numeric) ---------------- -/

def digitsVal (l : List Char) : Nat :=
  l.foldl (fun n c => 10 * n + (c.toNat - 48)) 0

def pow10 (n : Nat) : Rat := ((10 ^ n : Nat) : Rat)

/-- Multiply by a signed power of ten. -/
def applyExp (m : Rat) (e : Int) : Rat :=
  if 0 ≤ e then ratMul m (pow10 e.toNat) else ratDiv m (pow10 e.natAbs)

/-- Parse a decimal literal the way Python's `float` and
`pd.to_numeric(..., errors='coerce')` both do on ordinary numerals:
optional surrounding whitespace, optional sign, digits with an optional
fractional part, optional exponent. -/
def parseRat (s : String) : Option Rat :=
  let cs0 := (lowerStr (trimStr s)).data
  let signAndRest : Rat × List Char :=
    match cs0 with
    | '-' :: r => (-1, r)
    | '+' :: r => (1, r)
    | r => (1, r)
  let sgn := signAndRest.1
  let cs1 := signAndRest.2
  let ipSplit := cs1.span Char.isDigit
  let ip := ipSplit.1
  let fpSplit : List Char × List Char :=
    match ipSplit.2 with
    | '.' :: r => r.span Char.isDigit
    | r => ([], r)
  let fp := fpSplit.1
  if ip = [] ∧ fp = [] then none
  else
    let m : Rat := ratAdd (digitsVal ip : Rat) (ratDiv (digitsVal fp : Rat) (pow10 fp.length))
    match fpSplit.2 with
    | [] => some (ratMul sgn m)
    | 'e' :: r =>
      let esignAndRest : Int × List Char :=
        match r with
        | '-' :: r2 => (-1, r2)
        | '+' :: r2 => (1, r2)
        | r2 => (1, r2)
      let edSplit := esignAndRest.2.span Char.isDigit
      if edSplit.1 = [] ∨ edSplit.2 ≠ [] then none
      else some (applyExp (ratMul sgn m) (esignAndRest.1 * (digitsVal edSplit.1 : Int)))
    | _ => none

/-- `pd.to_numeric` on one non-missing cell (`errors='coerce'`: failures
become missing). -/
def toNumericCell : Cell → Option Rat
  | .num q => some q
  | .str s => parseRat s

/- ---------------- Request-Intent Parser (parse_chart_request) ---------------- -/

/-- The parser's result: `{"chart_type": ..., "value_column"?, "label_column"?}`. -/
structure ChartRequest where
  chartType : String
  valueColumn : Option String := none
  labelColumn : Option String := none
deriving DecidableEq, Repr

/-- `chart_keywords` of `parse_chart_request`, in dict order. -/
def chartKeywords : List (String × List String) :=
  [("pie", ["pie chart", "piechart", "pie", "donut", "doughnut"]),
   ("bar", ["bar chart", "barchart", "bar", "column", "histogram"]),
   ("line", ["line chart", "linechart", "line", "graph", "trend"]),
   ("scatter", ["scatter", "scatter plot", "scatterplot", "scatter chart"])]

/-- The generic visualization words that default the type to `bar`. -/
def genericVizWords : List String := ["chart", "graph", "visualiz", "plot", "diagram"]

/-- The stop-word set of `parse_chart_request`. -/
def commonWords : List String :=
  ["a", "the", "show", "create", "make", "chart", "pie", "bar", "line", "of", "for",
   "scatter", "graph", "plot", "visual", "visualize", "visualization", "display",
   "see", "view", "generate", "give", "want", "need", "help", "me"]

/-- Chart-type detection: first type any of whose keywords occurs in the
lower-cased message; else `bar` if a generic visualization word occurs. -/
def detectChartType (m : String) : Option String :=
  match chartKeywords.find? (fun p => p.2.any (fun kw => strContainsSub m kw)) with
  | some p => some p.1
  | none => if genericVizWords.any (fun kw => strContainsSub m kw) then some "bar" else none

/-- `parse_chart_request(user_message)`. -/
def parseChartRequest (userMessage : String) : Option ChartRequest :=
  let m := lowerStr userMessage
  match detectChartType m with
  | none => none
  | some ct =>
    if strContainsSub m " by " then
      match splitOnStr m " by " with
      | p0 :: p1 :: _ =>
        let wordsBefore := pySplitWs (trimStr p0)
        let wordsAfter := pySplitWs (trimStr p1)
        let v : Option String :=
          match wordsBefore.getLast? with
          | some w =>
            if commonWords.contains w then
              if wordsBefore.length ≥ 2 then
                match wordsBefore.get? (wordsBefore.length - 2) with
                | some w2 => if commonWords.contains w2 then none else some (lowerStr w2)
                | none => none
              else none
            else some (lowerStr w)
          | none => none
        let l : Option String :=
          match wordsAfter.head? with
          | some w => if commonWords.contains w then none else some (lowerStr w)
          | none => none
        some { chartType := ct, valueColumn := v, labelColumn := l }
      | _ => some { chartType := ct }
    else some { chartType := ct }

/- ---------------- Column-hint resolution (_find_best_column_match) ---------------- -/

/-- Step 1 of `_find_best_column_match`: exact case-insensitive match. -/
def directStep (tl : String) (cols : List String) : Option String :=
  cols.find? (fun c => lowerStr c == tl)

/-- Step 2: substring match in either direction. -/
def substringStep (tl : String) (cols : List String) : Option String :=
  cols.find? (fun c => strContainsSub (lowerStr c) tl || strContainsSub tl (lowerStr c))

/-- The `mappings` table of `_find_best_column_match`. -/
def semanticMappings : List (String × List String) :=
  [("sales", ["total", "sales", "revenue", "amount", "price", "quantity", "count"]),
   ("region", ["region", "area", "location", "place", "zone", "territory"]),
   ("date", ["date", "time", "day", "month", "year"]),
   ("product", ["product", "item", "name", "title"]),
   ("price", ["price", "cost", "amount", "unit price", "total"]),
   ("quantity", ["quantity", "qty", "count", "number", "amount"]),
   ("total", ["total", "sum", "amount", "sales", "revenue"])]

/-- One keyword against one column: exact equality, or substring occurrence
bounded by spaces or string edges (the whole-word guard). -/
def keywordMatchesCol (kw col : String) : Bool :=
  let cl := lowerStr col
  cl == kw ||
    (strContainsSub cl kw &&
      (strStartsWith cl (kw ++ " ") || strEndsWith cl (" " ++ kw) ||
        strContainsSub cl (" " ++ kw ++ " ")))

/-- Step 3: the semantic keyword cascade (keyword-major, first match wins). -/
def keywordStep (tl : String) (cols : List String) : Option String :=
  match semanticMappings.lookup tl with
  | none => none
  | some kws => kws.findSome? (fun kw => cols.find? (fun col => keywordMatchesCol kw col))

/-- `_find_best_column_match(target, candidate_columns)`. -/
def findBestColumnMatch (target : String) (cols : List String) : Option String :=
  let tl := trimStr (lowerStr target)
  (directStep tl cols) <|> (substringStep tl cols) <|> (keywordStep tl cols)

/- ---------------- Claims about the parser and the matcher ---------------- -/

/-- C8: the Request-Intent Parser maps
"create a pie chart showing sales by region" to chart type "pie" with value
column "sales" (last non-stop-word before " by ") and label column "region"
(first non-stop-word after " by "), and reports no chart request for
"hello, how are you". -/
theorem c8_parser_examples :
    parseChartRequest "create a pie chart showing sales by region" =
      some { chartType := "pie", valueColumn := some "sales", labelColumn := some "region" } ∧
    parseChartRequest "hello, how are you" = none :=
  ⟨rfl, rfl⟩

/-- C6 counterexample: a message whose only chart-related word is "graph"
yields chart type "line" (because "graph" is a keyword of the `line` entry
of `chart_keywords`), not "bar" as the claim states. -/
theorem c6_counterexample :
    (parseChartRequest "graph").map ChartRequest.chartType = some "line" ∧
      ("line" : String) ≠ "bar" :=
  ⟨rfl, by decide⟩

/-- C6 amended: if no per-chart-type keyword occurs in the lower-cased
message but a generic visualization word does, the parser defaults the chart
type to "bar".  (The word "graph" can never exercise this default: it is
itself a `line` keyword, so a graph-only message yields "line".) -/
theorem c6_amended_generic_default_bar (msg : String)
    (h1 : (chartKeywords.all fun p => p.2.all fun kw => !(strContainsSub (lowerStr msg) kw)) = true)
    (h2 : (genericVizWords.any fun kw => strContainsSub (lowerStr msg) kw) = true) :
    (parseChartRequest msg).map ChartRequest.chartType = some "bar" := by
  have hfind :
      chartKeywords.find? (fun p => p.2.any (fun kw => strContainsSub (lowerStr msg) kw)) = none := by
    rw [List.find?_eq_none]
    intro p hp hany
    simp only [List.all_eq_true] at h1
    obtain ⟨kw, hkw, hc⟩ := List.any_eq_true.mp hany
    have hfalse := h1 p hp kw hkw
    simp only [Bool.not_eq_true'] at hfalse
    rw [hfalse] at hc
    exact Bool.false_ne_true hc
  have hdet : detectChartType (lowerStr msg) = some "bar" := by
    unfold detectChartType
    rw [hfind, h2]
    rfl
  simp only [parseChartRequest, hdet]
  split <;> try rfl
  split <;> rfl

/-- C6 amended witness at the concrete message "please plot this". -/
theorem c6_amended_witness :
    ((chartKeywords.all fun p =>
        p.2.all fun kw => !(strContainsSub (lowerStr "please plot this") kw)) = true) ∧
    ((genericVizWords.any fun kw => strContainsSub (lowerStr "please plot this") kw) = true) ∧
    (parseChartRequest "please plot this").map ChartRequest.chartType = some "bar" :=
  ⟨by decide, by decide,
    c6_amended_generic_default_bar "please plot this" (by decide) (by decide)⟩

/-- C4 counterexample: `_find_best_column_match("sales", ["sales rep","total"])`
returns neither "total" nor no-match — the earlier plain substring rule
matches "sales" inside "sales rep" before the word-boundary-guarded keyword
cascade is ever reached. -/
theorem c4_counterexample :
    ¬ (findBestColumnMatch "sales" ["sales rep", "total"] = some "total" ∨
       findBestColumnMatch "sales" ["sales rep", "total"] = none) := by
  decide

/-- C4 amended: the whole-word-boundary guard lives only inside the semantic
keyword cascade (step 3 of the resolution cascade).  On candidates
["sales rep","total"], the full resolution returns "sales rep" via the
earlier substring rule, while the keyword step alone — the only place the
guard applies — returns "total". -/
theorem c4_amended_substring_precedes_guard :
    findBestColumnMatch "sales" ["sales rep", "total"] = some "sales rep" ∧
    keywordStep "sales" ["sales rep", "total"] = some "total" :=
  ⟨rfl, rfl⟩

/- ---------------- Column classification (find_suitable_columns) ---------------- -/

/-- Non-missing cells of a column, in order (`dropna()`). -/
def nonNullCells (cells : List (Option Cell)) : List Cell :=
  cells.filterMap id

/-- The convertibility check of `find_suitable_columns` on a text column:
sample the first `k` non-null values; succeed when the sample is non-empty
and strictly more than 80% of it converts under `pd.to_numeric(...,
errors='coerce')` (`5*converted > 4*sample` transcribes `ratio > 0.8`). -/
def sampleConvertibleTenth8 (cells : List (Option Cell)) (k : Nat) : Bool :=
  let sample := (nonNullCells cells).take k
  decide (sample ≠ []) &&
    decide (4 * sample.length < 5 * (sample.filterMap toNumericCell).length)

/-- `numeric_cols` after the first two passes of `find_suitable_columns`:
columns of numeric dtype, then text columns whose 10-value sample is > 80%
convertible, appended in column order while scanning the growing list. -/
def numericColsBroad (df : DataFrame) : List String :=
  df.colNames.foldl
    (fun acc c =>
      if ¬ acc.contains c ∧ ¬ df.isNumericDtype c ∧
          sampleConvertibleTenth8 (df.colCells c) 10 then
        acc ++ [c]
      else acc)
    (df.colNames.filter (fun c => df.isNumericDtype c))

/-- Largest value of a non-empty list (`Series.max()`); 0 on `[]` (unused). -/
def listMaxRat : List Rat → Rat
  | [] => 0
  | x :: xs => xs.foldl max x

/-- Smallest value of a non-empty list (`Series.min()`); 0 on `[]` (unused). -/
def listMinRat : List Rat → Rat
  | [] => 0
  | x :: xs => xs.foldl min x

/-- The strict second pass: a broad-numeric column survives as truly numeric
iff it still has numeric dtype, has non-null values, more than 2 distinct
values (`nunique`) and a strictly positive max−min range. -/
def keepTrulyNumeric (df : DataFrame) (c : String) : Bool :=
  df.isNumericDtype c &&
    (let vs := df.nonNullRats c
     decide (vs ≠ []) && decide (2 < vs.dedup.length) &&
       decide (0 < ratSub (listMaxRat vs) (listMinRat vs)))

/-- `true_numeric_cols` of `find_suitable_columns`. -/
def trueNumericCols (df : DataFrame) : List String :=
  (numericColsBroad df).filter (keepTrulyNumeric df)

/-- `categorical_cols` of `find_suitable_columns`: every column not truly
numeric. -/
def categoricalCols (df : DataFrame) : List String :=
  df.colNames.filter (fun c => ¬ (trueNumericCols df).contains c)

/-- `find_suitable_columns()`: the pair (numeric, categorical). -/
def findSuitableColumns (df : DataFrame) : List String × List String :=
  (trueNumericCols df, categoricalCols df)

/-- A successful association-list lookup means the key occurs among the keys. -/
theorem lookup_mem_keys {β : Type} (l : List (String × β)) (a : String) (b : β)
    (h : l.lookup a = some b) : a ∈ l.map Prod.fst := by
  induction l with
  | nil => simp [List.lookup] at h
  | cons p l ih =>
    simp only [List.lookup] at h
    simp only [List.map_cons, List.mem_cons]
    cases hab : (a == p.1) with
    | true => exact Or.inl (eq_of_beq hab)
    | false =>
      rw [hab] at h
      exact Or.inr (ih h)

/-- Members of the broad numeric list are column names. -/
theorem numericColsBroad_subset (df : DataFrame) :
    ∀ c ∈ numericColsBroad df, c ∈ df.colNames := by
  unfold numericColsBroad
  have : ∀ (l acc : List String), (∀ x ∈ l, x ∈ df.colNames) →
      (∀ x ∈ acc, x ∈ df.colNames) →
      ∀ c ∈ l.foldl (fun acc c =>
        if ¬ acc.contains c ∧ ¬ df.isNumericDtype c ∧
            sampleConvertibleTenth8 (df.colCells c) 10 then acc ++ [c] else acc) acc,
        c ∈ df.colNames := by
    intro l
    induction l with
    | nil => intro acc _ hacc c hc; exact hacc c hc
    | cons a l ih =>
      intro acc hl hacc c hc
      simp only [List.foldl_cons] at hc
      refine ih _ (fun x hx => hl x (List.mem_cons_of_mem _ hx)) ?_ c hc
      intro x hx
      by_cases hcond : ¬ acc.contains a ∧ ¬ df.isNumericDtype a ∧
          sampleConvertibleTenth8 (df.colCells a) 10
      · rw [if_pos hcond] at hx
        rcases List.mem_append.mp hx with h | h
        · exact hacc x h
        · rcases List.mem_singleton.mp h with rfl
          exact hl x (List.mem_cons_self _ _)
      · rw [if_neg hcond] at hx
        exact hacc x hx
  refine fun c hc => this df.colNames _ (fun x hx => hx) ?_ c hc
  intro x hx
  exact List.mem_of_mem_filter hx

/-- Members of the broad numeric list appear exactly once. -/
theorem numericColsBroad_nodup (df : DataFrame) (h : df.colNames.Nodup) :
    (numericColsBroad df).Nodup := by
  unfold numericColsBroad
  have : ∀ (l acc : List String), acc.Nodup →
      (l.foldl (fun acc c =>
        if ¬ acc.contains c ∧ ¬ df.isNumericDtype c ∧
            sampleConvertibleTenth8 (df.colCells c) 10 then acc ++ [c] else acc) acc).Nodup := by
    intro l
    induction l with
    | nil => intro acc hacc; exact hacc
    | cons a l ih =>
      intro acc hacc
      simp only [List.foldl_cons]
      by_cases hcond : ¬ acc.contains a ∧ ¬ df.isNumericDtype a ∧
          sampleConvertibleTenth8 (df.colCells a) 10
      · rw [if_pos hcond]
        refine ih _ ?_
        have hna : a ∉ acc := by
          intro hmem
          exact hcond.1 (List.elem_iff.mpr hmem)
        simpa [List.nodup_append] using ⟨hacc, hna⟩
      · rw [if_neg hcond]
        exact ih _ hacc
  exact this df.colNames _ (List.Nodup.filter _ h)

/-- C2: a column stored with numeric dtype whose non-null values have at
most 2 distinct values, or whose max−min range is zero, is demoted by
`find_suitable_columns`: it lands in the categorical list and not in the
numeric list. -/
theorem c2_fake_numeric_demoted (df : DataFrame) (c : String) (vals : List (Option Rat))
    (hcol : df.lookupCol c = some (ColData.numeric vals))
    (hfake : (vals.filterMap id).dedup.length ≤ 2 ∨
      listMaxRat (vals.filterMap id) - listMinRat (vals.filterMap id) = 0) :
    c ∈ (findSuitableColumns df).2 ∧ c ∉ (findSuitableColumns df).1 := by
  have hvs : df.nonNullRats c = vals.filterMap id := by
    unfold DataFrame.nonNullRats
    rw [hcol]
  have hkeep : keepTrulyNumeric df c = false := by
    unfold keepTrulyNumeric
    rw [hvs]
    rcases hfake with h | h
    · have : ¬ (2 < (vals.filterMap id).dedup.length) := by omega
      simp [this]
    · have : ¬ (0 < ratSub (listMaxRat (vals.filterMap id)) (listMinRat (vals.filterMap id))) := by
        rw [ratSub_eq, h]
        exact lt_irrefl 0
      simp [this]
  have hnotnum : c ∉ trueNumericCols df := by
    intro hmem
    have hkept := List.of_mem_filter hmem
    rw [hkeep] at hkept
    exact Bool.false_ne_true hkept
  have hname : c ∈ df.colNames := lookup_mem_keys df.cols c _ hcol
  refine ⟨?_, hnotnum⟩
  show c ∈ categoricalCols df
  refine List.mem_filter.mpr ⟨hname, ?_⟩
  simp only [decide_eq_true_eq]
  intro hcontains
  exact hnotnum (List.elem_iff.mp hcontains)

/-- C3: under the spec's unique-column-name invariant, `find_suitable_columns`
partitions the columns: every column name lands in exactly one of the
numeric and categorical lists, each list holds it at most once, and the
classification is a pure (hence deterministic and idempotent) function of
the dataset contents. -/
theorem c3_partition_deterministic (df : DataFrame) (h : df.colNames.Nodup) (c : String) :
    (c ∈ df.colNames ↔ (c ∈ (findSuitableColumns df).1 ∨ c ∈ (findSuitableColumns df).2)) ∧
    ¬ (c ∈ (findSuitableColumns df).1 ∧ c ∈ (findSuitableColumns df).2) ∧
    (findSuitableColumns df).1.Nodup ∧ (findSuitableColumns df).2.Nodup ∧
    findSuitableColumns df = findSuitableColumns df := by
  have hsub : ∀ x ∈ trueNumericCols df, x ∈ df.colNames := by
    intro x hx
    exact numericColsBroad_subset df x (List.mem_of_mem_filter hx)
  refine ⟨?_, ?_, ?_, ?_, rfl⟩
  · constructor
    · intro hc
      by_cases hmem : c ∈ trueNumericCols df
      · exact Or.inl hmem
      · refine Or.inr (List.mem_filter.mpr ⟨hc, ?_⟩)
        simp only [decide_eq_true_eq]
        intro hcontains
        exact hmem (List.elem_iff.mp hcontains)
    · rintro (hc | hc)
      · exact hsub c hc
      · exact List.mem_of_mem_filter hc
  · rintro ⟨hnum, hcat⟩
    have hpred := List.of_mem_filter hcat
    simp only [decide_eq_true_eq] at hpred
    exact hpred (List.elem_iff.mpr hnum)
  · exact List.Nodup.filter _ (numericColsBroad_nodup df h)
  · exact List.Nodup.filter _ h

/-- A small concrete dataset: a {0,1} flag column (numeric dtype) and a
genuinely varying numeric column. -/
def dfFlag : DataFrame :=
  { cols := [("flag", ColData.numeric [some 0, some 1, some 0]),
             ("x", ColData.numeric [some 1, some 2, some 3])],
    nrows := 3 }

/-- C2 witness: on `dfFlag`, the hypotheses of `c2_fake_numeric_demoted`
hold for the {0,1} column "flag", and it is classified categorical. -/
theorem c2_witness :
    dfFlag.lookupCol "flag" = some (ColData.numeric [some 0, some 1, some 0]) ∧
    ((([some (0 : Rat), some 1, some 0].filterMap id).dedup.length ≤ 2) ∨
      (listMaxRat ([some (0 : Rat), some 1, some 0].filterMap id) -
        listMinRat ([some (0 : Rat), some 1, some 0].filterMap id) = 0)) ∧
    ("flag" ∈ (findSuitableColumns dfFlag).2 ∧ "flag" ∉ (findSuitableColumns dfFlag).1) :=
  ⟨by decide, Or.inl (by decide),
    c2_fake_numeric_demoted dfFlag "flag" [some 0, some 1, some 0] (by decide)
      (Or.inl (by decide))⟩

/-- C3 witness: `dfFlag` has distinct column names, and the partition
properties hold at the column "flag". -/
theorem c3_witness :
    dfFlag.colNames.Nodup ∧
    (("flag" ∈ dfFlag.colNames ↔
        ("flag" ∈ (findSuitableColumns dfFlag).1 ∨ "flag" ∈ (findSuitableColumns dfFlag).2)) ∧
      ¬ ("flag" ∈ (findSuitableColumns dfFlag).1 ∧ "flag" ∈ (findSuitableColumns dfFlag).2) ∧
      (findSuitableColumns dfFlag).1.Nodup ∧ (findSuitableColumns dfFlag).2.Nodup ∧
      findSuitableColumns dfFlag = findSuitableColumns dfFlag) :=
  ⟨by decide, c3_partition_deterministic dfFlag (by decide) "flag"⟩

/- ---------------- Cell arithmetic and ordering ---------------- -/

/-- Python `+` on two cells, as `Series.sum` reduces a group: numbers add,
strings concatenate, mixed types raise `TypeError`. -/
def cellAdd : Cell → Cell → Except String Cell
  | .num a, .num b => .ok (.num (ratAdd a b))
  | .str a, .str b => .ok (.str (a ++ b))
  | _, _ => .error "unsupported operand type for +"

/-- `Series.sum()` over the non-missing cells of one group (`skipna`):
reduce with `+`, empty sum is numeric 0. -/
def cellSum : List Cell → Except String Cell
  | [] => .ok (.num 0)
  | x :: xs => xs.foldlM cellAdd x

/-- Lexicographic strictly-less on character lists (Python `str` ordering). -/
def charListLt : List Char → List Char → Bool
  | [], [] => false
  | [], _ :: _ => true
  | _ :: _, [] => false
  | a :: as, b :: bs => if a < b then true else if b < a then false else charListLt as bs

/-- Python string `<=`. -/
def strLeB (a b : String) : Bool := ! charListLt b.data a.data

/-- Total comparison on cells.  pandas raises on a number/string comparison;
such comparisons are unreachable on the homogeneous data every sort below
actually receives, and the embedding extends the order totally (numbers
before strings) for definiteness. -/
def cellLeB : Cell → Cell → Bool
  | .num a, .num b => decide (a ≤ b)
  | .num _, .str _ => true
  | .str _, .num _ => false
  | .str a, .str b => strLeB a b

/-- Comparison on possibly-missing cells with `NaN` at the bottom (so that a
descending sort puts missing values last, pandas' `na_position='last'`). -/
def optCellLeBotB : Option Cell → Option Cell → Bool
  | none, _ => true
  | some _, none => false
  | some a, some b => cellLeB a b

/-- Comparison on possibly-missing cells with `NaN` at the top (so that an
ascending sort puts missing values last). -/
def optCellLeTopB : Option Cell → Option Cell → Bool
  | _, none => true
  | none, some _ => false
  | some a, some b => cellLeB a b

theorem charListLt_asymm : ∀ a b : List Char, charListLt a b = true → charListLt b a = false := by
  intro a
  induction a with
  | nil =>
    intro b h
    cases b with
    | nil => simp [charListLt] at h
    | cons y ys => simp [charListLt]
  | cons x xs ih =>
    intro b h
    cases b with
    | nil => simp [charListLt] at h
    | cons y ys =>
      simp only [charListLt] at h ⊢
      by_cases hxy : x < y
      · rw [if_neg (asymm hxy), if_pos hxy]
      · by_cases hyx : y < x
        · rw [if_neg hxy, if_pos hyx] at h
          exact absurd h (by simp)
        · rw [if_neg hxy, if_neg hyx] at h
          rw [if_neg hyx, if_neg hxy]
          exact ih ys h

theorem charListLt_trans :
    ∀ a b c : List Char, charListLt a b = true → charListLt b c = true → charListLt a c = true := by
  intro a
  induction a with
  | nil =>
    intro b c h1 h2
    cases b with
    | nil => simp [charListLt] at h1
    | cons y ys =>
      cases c with
      | nil => simp [charListLt] at h2
      | cons z zs => simp [charListLt]
  | cons x xs ih =>
    intro b c h1 h2
    cases b with
    | nil => simp [charListLt] at h1
    | cons y ys =>
      cases c with
      | nil => simp [charListLt] at h2
      | cons z zs =>
        simp only [charListLt] at h1 h2 ⊢
        by_cases hxy : x < y
        · by_cases hyz : y < z
          · rw [if_pos (lt_trans hxy hyz)]
          · by_cases hzy : z < y
            · rw [if_neg hyz, if_pos hzy] at h2
              exact absurd h2 (by simp)
            · have hyzeq : y = z := le_antisymm (not_lt.mp hzy) (not_lt.mp hyz)
              subst hyzeq
              rw [if_pos hxy]
        · by_cases hyx : y < x
          · rw [if_neg hxy, if_pos hyx] at h1
            exact absurd h1 (by simp)
          · have hxyeq : x = y := le_antisymm (not_lt.mp hyx) (not_lt.mp hxy)
            subst hxyeq
            rw [if_neg hxy, if_neg hyx] at h1
            by_cases hyz : x < z
            · rw [if_pos hyz]
            · by_cases hzy : z < x
              · rw [if_neg hyz, if_pos hzy] at h2
                exact absurd h2 (by simp)
              · have hyzeq : x = z := le_antisymm (not_lt.mp hzy) (not_lt.mp hyz)
                subst hyzeq
                rw [if_neg hyz, if_neg hyz] at h2 ⊢
                exact ih ys zs h1 h2

theorem charListLt_connex (a b : List Char) (hab : charListLt a b = false)
    (hba : charListLt b a = false) : a = b := by
  induction a generalizing b with
  | nil =>
    cases b with
    | nil => rfl
    | cons c cs => simp [charListLt] at hab
  | cons x xs ih =>
    cases b with
    | nil => simp [charListLt] at hba
    | cons y ys =>
      simp only [charListLt] at hab hba
      by_cases hxy : x < y
      · rw [if_pos hxy] at hab
        exact absurd hab (by simp)
      · by_cases hyx : y < x
        · rw [if_pos hyx] at hba
          exact absurd hba (by simp)
        · have hx : x = y := le_antisymm (not_lt.mp hyx) (not_lt.mp hxy)
          rw [if_neg hxy, if_neg hyx] at hab
          rw [if_neg hyx, if_neg hxy] at hba
          rw [hx, ih ys hab hba]

theorem strLeB_total (a b : String) : strLeB a b = true ∨ strLeB b a = true := by
  unfold strLeB
  by_cases h : charListLt b.data a.data = true
  · right
    simp [charListLt_asymm _ _ h]
  · left
    simp only [Bool.not_eq_true] at h
    simp [h]

theorem strLeB_trans (a b c : String) (h1 : strLeB a b = true) (h2 : strLeB b c = true) :
    strLeB a c = true := by
  unfold strLeB at h1 h2 ⊢
  simp only [Bool.not_eq_true'] at h1 h2 ⊢
  by_cases hca : charListLt c.data a.data = true
  · by_cases hbc : charListLt b.data c.data = true
    · have hba := charListLt_trans _ _ _ hbc hca
      rw [hba] at h1
      exact absurd h1 (by simp)
    · have hecb : b.data = c.data :=
        charListLt_connex _ _ (by simpa using hbc) h2
      rw [← hecb] at hca
      rw [hca] at h1
      exact absurd h1 (by simp)
  · simpa using hca

theorem cellLeB_total (a b : Cell) : cellLeB a b = true ∨ cellLeB b a = true := by
  cases a <;> cases b <;> simp [cellLeB]
  · exact le_total _ _
  · exact strLeB_total _ _

theorem cellLeB_trans (a b c : Cell) (h1 : cellLeB a b = true) (h2 : cellLeB b c = true) :
    cellLeB a c = true := by
  cases a <;> cases b <;> cases c <;> simp [cellLeB] at h1 h2 ⊢
  · exact le_trans h1 h2
  · exact strLeB_trans _ _ _ h1 h2

theorem optCellLeBotB_total (a b : Option Cell) :
    optCellLeBotB a b = true ∨ optCellLeBotB b a = true := by
  cases a <;> cases b <;> simp [optCellLeBotB]
  exact cellLeB_total _ _

theorem optCellLeBotB_trans (a b c : Option Cell) (h1 : optCellLeBotB a b = true)
    (h2 : optCellLeBotB b c = true) : optCellLeBotB a c = true := by
  cases a <;> cases b <;> cases c <;> simp [optCellLeBotB] at h1 h2 ⊢
  exact cellLeB_trans _ _ _ h1 h2

theorem optCellLeTopB_total (a b : Option Cell) :
    optCellLeTopB a b = true ∨ optCellLeTopB b a = true := by
  cases a <;> cases b <;> simp [optCellLeTopB]
  exact cellLeB_total _ _

theorem optCellLeTopB_trans (a b c : Option Cell) (h1 : optCellLeTopB a b = true)
    (h2 : optCellLeTopB b c = true) : optCellLeTopB a c = true := by
  cases a <;> cases b <;> cases c <;> simp [optCellLeTopB] at h1 h2 ⊢
  exact cellLeB_trans _ _ _ h1 h2

/- ---------------- Sorting (sort_values / nlargest / value_counts) ---------------- -/

/-- Descending-by-summed-value order on grouped pairs (`sort_values(...,
ascending=False)` after `groupby(...).sum()`). -/
def pairDescRel (p q : Cell × Cell) : Prop := cellLeB q.2 p.2 = true

instance : DecidableRel pairDescRel := fun p q => by
  unfold pairDescRel; infer_instance

instance : IsTotal (Cell × Cell) pairDescRel :=
  ⟨fun p q => show cellLeB q.2 p.2 = true ∨ cellLeB p.2 q.2 = true from cellLeB_total q.2 p.2⟩

instance : IsTrans (Cell × Cell) pairDescRel :=
  ⟨fun _ _ _ h1 h2 => show cellLeB _ _ = true from cellLeB_trans _ _ _ h2 h1⟩

/-- Sort grouped pairs descending by summed value. -/
def sortPairsDesc (g : List (Cell × Cell)) : List (Cell × Cell) :=
  List.insertionSort pairDescRel g

/-- Descending order on rows (pairs of cells) by the second component,
missing values last. -/
def rowDescBySndRel (p q : Option Cell × Option Cell) : Prop :=
  optCellLeBotB q.2 p.2 = true

instance : DecidableRel rowDescBySndRel := fun p q => by
  unfold rowDescBySndRel; infer_instance

instance : IsTotal (Option Cell × Option Cell) rowDescBySndRel :=
  ⟨fun p q =>
    show optCellLeBotB q.2 p.2 = true ∨ optCellLeBotB p.2 q.2 = true from
      optCellLeBotB_total q.2 p.2⟩

instance : IsTrans (Option Cell × Option Cell) rowDescBySndRel :=
  ⟨fun _ _ _ h1 h2 => show optCellLeBotB _ _ = true from optCellLeBotB_trans _ _ _ h2 h1⟩

/-- `df.sort_values(y, ascending=False)` on rows (pairs x-cell, y-cell). -/
def sortRowsDescBySnd (rows : List (Option Cell × Option Cell)) :
    List (Option Cell × Option Cell) :=
  List.insertionSort rowDescBySndRel rows

/-- Ascending order on rows by the first component, missing values last. -/
def rowAscByFstRel (p q : Option Cell × Option Cell) : Prop :=
  optCellLeTopB p.1 q.1 = true

instance : DecidableRel rowAscByFstRel := fun p q => by
  unfold rowAscByFstRel; infer_instance

instance : IsTotal (Option Cell × Option Cell) rowAscByFstRel :=
  ⟨fun p q =>
    show optCellLeTopB p.1 q.1 = true ∨ optCellLeTopB q.1 p.1 = true from
      optCellLeTopB_total p.1 q.1⟩

instance : IsTrans (Option Cell × Option Cell) rowAscByFstRel :=
  ⟨fun _ _ _ h1 h2 => show optCellLeTopB _ _ = true from optCellLeTopB_trans _ _ _ h1 h2⟩

/-- `df.sort_values(x)` (ascending) on rows. -/
def sortRowsAscByFst (rows : List (Option Cell × Option Cell)) :
    List (Option Cell × Option Cell) :=
  List.insertionSort rowAscByFstRel rows

/-- Descending order by a natural-number count (`value_counts`). -/
def countDescRel (p q : Cell × Nat) : Prop := q.2 ≤ p.2

instance : DecidableRel countDescRel := fun p q => by
  unfold countDescRel; infer_instance

instance : IsTotal (Cell × Nat) countDescRel :=
  ⟨fun p q => show q.2 ≤ p.2 ∨ p.2 ≤ q.2 from le_total q.2 p.2⟩

instance : IsTrans (Cell × Nat) countDescRel :=
  ⟨fun _ _ _ h1 h2 => show _ ≤ _ from le_trans h2 h1⟩

/-- Descending order on (row index, value) pairs by value (`nlargest`). -/
def idxValDescRel (p q : Nat × Rat) : Prop := q.2 ≤ p.2

instance : DecidableRel idxValDescRel := fun p q => by
  unfold idxValDescRel; infer_instance

instance : IsTotal (Nat × Rat) idxValDescRel :=
  ⟨fun p q => show q.2 ≤ p.2 ∨ p.2 ≤ q.2 from le_total q.2 p.2⟩

instance : IsTrans (Nat × Rat) idxValDescRel :=
  ⟨fun _ _ _ h1 h2 => show _ ≤ _ from le_trans h2 h1⟩

/- ---------------- Grouping (groupby(label)[value].sum()) ---------------- -/

/-- `mapM` over `Except`, written recursively so that proofs can proceed by
structural induction; stops at the first error, like the monadic fold the
source's comprehensions correspond to. -/
def mapExcept (f : α → Except String β) : List α → Except String (List β)
  | [] => .ok []
  | a :: l =>
    match f a with
    | .error e => .error e
    | .ok b =>
      match mapExcept f l with
      | .error e => .error e
      | .ok bs => .ok (b :: bs)

/-- The non-missing values of the group keyed by `k` (rows whose label is
`k`), in row order. -/
def groupValues (pairs : List (Option Cell × Option Cell)) (k : Cell) : List Cell :=
  pairs.filterMap (fun p => if p.1 = some k then p.2 else none)

/-- `df.groupby(label)[value].sum()`: one (key, sum) entry per distinct
non-missing label (rows with missing labels are dropped); a mixed-type group
raises. -/
def groupbySum (pairs : List (Option Cell × Option Cell)) :
    Except String (List (Cell × Cell)) :=
  mapExcept (fun k => (cellSum (groupValues pairs k)).map (fun s => (k, s)))
    ((pairs.filterMap Prod.fst).dedup)

/- ---------------- Chart configurations ---------------- -/

/-- One `{name, value}` data point (value `none` = NaN). -/
structure Point where
  name : String
  value : Option Rat
deriving DecidableEq, Repr

/-- One `{x, y}` scatter point (`none` = NaN). -/
structure ScatterPoint where
  x : Option Rat
  y : Option Rat
deriving DecidableEq, Repr

/-- The chart configuration dict returned to the caller.  Pie/bar/line use
`data`; scatter uses `scatterData` (the `data` key with `{x, y}` records). -/
structure ChartConfig where
  data : List Point
  scatterData : List ScatterPoint := []
  title : String
  valueKey : Option String := none
  xKey : String
  yKey : String
  xLabel : Option String := none
  yLabel : Option String := none
  name : Option String := none
deriving DecidableEq, Repr

/- ---------------- Stringification (str(...)) ---------------- -/

def natDigitsRev : Nat → Nat → List Char
  | 0, _ => []
  | fuel + 1, n =>
    if n < 10 then [Char.ofNat (48 + n)]
    else Char.ofNat (48 + n % 10) :: natDigitsRev fuel (n / 10)

def natToStr (n : Nat) : String := ⟨(natDigitsRev (n + 1) n).reverse⟩

def intToStr (i : Int) : String :=
  if i < 0 then "-" ++ natToStr i.natAbs else natToStr i.toNat

/-- Textual form of a numeric cell.  (Python renders floats differently from
this num/den form; no formalised property inspects the rendered text.) -/
def ratToStr (q : Rat) : String :=
  if q.den = 1 then intToStr q.num else intToStr q.num ++ "/" ++ natToStr q.den

/-- Python `str(...)` of a cell. -/
def strOfCell : Cell → String
  | .num q => ratToStr q
  | .str s => s

/-- Python `str(...)` of a possibly-missing cell (`str(nan) = "nan"`). -/
def strOfOptCell : Option Cell → String
  | none => "nan"
  | some c => strOfCell c

/- ---------------- float(...) casts ---------------- -/

/-- Python `float(...)` of a possibly-missing cell: numbers pass through,
numeric strings parse, `NaN` stays `NaN`, other strings raise. -/
def floatOfOptCell : Option Cell → Except String (Option Rat)
  | none => .ok none
  | some (.num q) => .ok (some q)
  | some (.str s) =>
    match parseRat s with
    | some q => .ok (some q)
    | none => .error ("could not convert string to float: " ++ s)

/-- `float(...)` of a non-missing cell. -/
def floatOfCell (c : Cell) : Except String (Option Rat) :=
  floatOfOptCell (some c)

/- ---------------- In-place numeric coercion of a column ---------------- -/

/-- `pd.to_numeric(col, errors='coerce')` applied to a whole column: the
result has numeric dtype, non-convertible cells become missing. -/
def ColData.coerceNumeric : ColData → ColData
  | .numeric vs => .numeric vs
  | .obj vs => .numeric (vs.map (fun oc => oc.bind toNumericCell))

/-- The in-place assignment
`self.df[c] = pd.to_numeric(self.df[c], errors='coerce')`. -/
def coerceColumnNumeric (df : DataFrame) (c : String) : DataFrame :=
  { df with cols := df.cols.map (fun p => if p.1 = c then (p.1, p.2.coerceNumeric) else p) }

/-- The paired rows of two columns (`df[[x, y]]`, row-aligned). -/
def rowsOf (df : DataFrame) (x y : String) : List (Option Cell × Option Cell) :=
  (df.colCells x).zip (df.colCells y)

/-- Build `{name, value}` points from grouped (key, sum) pairs:
`str(key)` and `float(sum)` per group. -/
def pointsOfGroups (g : List (Cell × Cell)) : Except String (List Point) :=
  mapExcept (fun p => (floatOfCell p.2).map (fun v => Point.mk (strOfCell p.1) v)) g

/-- Build `{name, value}` points from raw rows: `str(row[x])`,
`float(row[y])`. -/
def rowPoints (rows : List (Option Cell × Option Cell)) : Except String (List Point) :=
  mapExcept (fun p => (floatOfOptCell p.2).map (fun v => Point.mk (strOfOptCell p.1) v)) rows

/- ---------------- Pie chart generation (generate_pie_chart) ---------------- -/

/-- Auto-detection of the pie label column (lines 243-267): preferred
semantic targets whose match is categorical, then the first categorical
column, then the first numeric column when several exist, then the first
column. -/
def pieAutoDetectLabel (df : DataFrame) (label? : Option String) : Option String :=
  match label? with
  | some l => some l
  | none =>
    let suitable := findSuitableColumns df
    let fromTargets := (["region", "category", "type", "product"] : List String).findSome?
      (fun target =>
        match findBestColumnMatch target df.colNames with
        | some m => if suitable.2.contains m then some m else none
        | none => none)
    match fromTargets with
    | some m => some m
    | none =>
      if suitable.2 ≠ [] then suitable.2.head?
      else if 1 < suitable.1.length then suitable.1.head?
      else if 0 < df.cols.length then df.colNames.head?
      else none

/-- Auto-detection of the pie value column (lines 269-294): preferred
semantic targets whose match is numeric, then the first numeric column
(avoiding the label when a second numeric column exists), then the second
column. -/
def pieAutoDetectValue (df : DataFrame) (value? labelAfter : Option String) : Option String :=
  match value? with
  | some v => some v
  | none =>
    let suitable := findSuitableColumns df
    let fromTargets := (["sales", "total", "revenue", "amount"] : List String).findSome?
      (fun target =>
        match findBestColumnMatch target df.colNames with
        | some m => if suitable.1.contains m then some m else none
        | none => none)
    match fromTargets with
    | some m => some m
    | none =>
      if suitable.1 ≠ [] then
        if suitable.1.head? = labelAfter ∧ 1 < suitable.1.length then suitable.1.get? 1
        else suitable.1.head?
      else if suitable.1.length = 1 ∧ labelAfter ≠ suitable.1.head? then suitable.1.head?
      else if 1 < df.cols.length then
        (if 1 < df.colNames.length then df.colNames.get? 1 else df.colNames.head?)
      else none

/-- Lines 296-310: map a hint to an actual column via the fuzzy matcher
when it is not a column name.  A `None` hint crashes in the source
(`None.lower()` inside `_find_best_column_match`), embedded as an error. -/
def matchHintToColumn (df : DataFrame) (hint? : Option String) : Except String String :=
  match hint? with
  | none => .error "AttributeError: NoneType object has no attribute lower"
  | some s =>
    if df.colNames.contains s then .ok s
    else
      match findBestColumnMatch s df.colNames with
      | some m => .ok m
      | none => .ok s

/-- Lines 313-325: one more semantic-matching round for hints that still
name no real column; may leave a hint unresolved (`None`) again. -/
def pieRematch (df : DataFrame) (l v : String) : Option String × Option String :=
  if ¬ df.colNames.contains l ∨ ¬ df.colNames.contains v then
    let suitable := findSuitableColumns df
    let l' : Option String :=
      if ¬ df.colNames.contains l then
        match findBestColumnMatch
            (if strContainsSub (lowerStr l) "label" then "label" else "region") df.colNames with
        | some m => some m
        | none => if suitable.2 ≠ [] then suitable.2.head? else none
      else some l
    let v' : Option String :=
      if ¬ df.colNames.contains v then
        match findBestColumnMatch
            (if strContainsSub (lowerStr v) "value" then "value" else "sales") df.colNames with
        | some m => some m
        | none => if suitable.1 ≠ [] then suitable.1.head? else none
      else some v
    (l', v')
  else (some l, some v)

/-- Python truthiness of an optional string. -/
def truthy : Option String → Bool
  | some s => s ≠ ""
  | none => false

/-- Line 328: the debug log evaluates `self.df[[label, value]].head()` when
both names are truthy, raising `KeyError` if either is not a column. -/
def pieLogGate (df : DataFrame) (l? v? : Option String) : Except String Unit :=
  match l?, v? with
  | some l, some v =>
    if truthy (some l) ∧ truthy (some v) ∧
        (¬ df.colNames.contains l ∨ ¬ df.colNames.contains v) then
      .error "KeyError: columns not in index"
    else .ok ()
  | _, _ => .ok ()

/-- Lines 330-336: fail when either column is still undetermined. -/
def pieNoneGate (df : DataFrame) (l? v? : Option String) : Except String (String × String) :=
  match l?, v? with
  | some l, some v => .ok (l, v)
  | _, _ =>
    .error ("Cannot create pie chart: need at least one numeric column. Available columns: " ++
      String.intercalate ", " df.colNames)

/-- Lines 347-353: the preferred numeric replacement for a non-numeric
value column, when one matches. -/
def pieValueReplacement (df : DataFrame) : Option String :=
  (["total", "sales", "revenue", "amount", "price", "quantity"] : List String).findSome?
    (fun target =>
      match findBestColumnMatch target df.colNames with
      | some m =>
        if (findSuitableColumns df).1.contains m ∧ df.isNumericDtype m then some m else none
      | none => none)

/-- Lines 343-361: when the chosen value column is not numeric dtype, try to
replace it by a preferred numeric column, then by the first truly numeric
column. -/
def pieValueFixup (df : DataFrame) (v : String) : String :=
  if df.isNumericDtype v then v
  else
    let v1 := (pieValueReplacement df).getD v
    if df.isNumericDtype v1 then v1
    else (((findSuitableColumns df).1.find? (fun c => df.isNumericDtype c)).getD v1)

/-- Column resolution of `generate_pie_chart` (lines 236-361), ending with
the names actually used for grouping. -/
def pieResolve (df : DataFrame) (label? value? : Option String) :
    Except String (String × String) :=
  let l0 := pieAutoDetectLabel df label?
  let v0 := pieAutoDetectValue df value? l0
  match matchHintToColumn df l0 with
  | .error e => .error e
  | .ok l1 =>
    match matchHintToColumn df v0 with
    | .error e => .error e
    | .ok v1 =>
      let lv2 := pieRematch df l1 v1
      match pieLogGate df lv2.1 lv2.2 with
      | .error e => .error e
      | .ok _ =>
        match pieNoneGate df lv2.1 lv2.2 with
        | .error e => .error e
        | .ok lv3 =>
          if ¬ df.colNames.contains lv3.1 ∨ ¬ df.colNames.contains lv3.2 then
            .error ("Columns not found in data: label=" ++ lv3.1 ++ ", value=" ++ lv3.2)
          else
            .ok (lv3.1, pieValueFixup df lv3.2)

/-- The group-sort-truncate pipeline shared by pie (lines 364-366 /
372-373) and bar (lines 497-499): group by the label column, sum the value
column, sort descending, keep the top `topn`. -/
def groupSortTake (df : DataFrame) (l v : String) (topn : Nat) :
    Except String (List (Cell × Cell)) :=
  (groupbySum (rowsOf df l v)).map (fun g => (sortPairsDesc g).take topn)

/-- The pie configuration built from grouped data (lines 381-392). -/
def pieConfigOfGroups (g : List (Cell × Cell)) (l v : String) : Except String ChartConfig :=
  (pointsOfGroups g).map (fun pts =>
    { data := pts, title := v ++ " by " ++ l, valueKey := some "value",
      xKey := "name", yKey := "value" })

/-- `generate_pie_chart(label_column, value_column, top_n)`.  Returns the
result together with the dataset afterwards: the single retry of the
grouping (lines 367-376) first overwrites the value column in place with its
forced-numeric coercion. -/
def generatePieChart (df : DataFrame) (label? value? : Option String) (topn : Nat) :
    Except String ChartConfig × DataFrame :=
  match pieResolve df label? value? with
  | .error e => (.error e, df)
  | .ok lv =>
    match groupSortTake df lv.1 lv.2 topn with
    | .ok g => (pieConfigOfGroups g lv.1 lv.2, df)
    | .error _ =>
      match groupSortTake (coerceColumnNumeric df lv.2) lv.1 lv.2 topn with
      | .ok g => (pieConfigOfGroups g lv.1 lv.2, coerceColumnNumeric df lv.2)
      | .error _ =>
        (.error ("Could not create chart with columns label=" ++ lv.1 ++ ", value=" ++ lv.2),
          coerceColumnNumeric df lv.2)

/- ---------------- Bar chart generation (generate_bar_chart) ---------------- -/

/-- Auto-detection of the bar x column (lines 418-435): first categorical
column containing a preferred keyword, else the first categorical column,
else the first column when the column index is truthy. -/
def barAutoDetectX (df : DataFrame) (x? : Option String) : Option String :=
  match x? with
  | some x => some x
  | none =>
    let suitable := findSuitableColumns df
    match (["region", "category", "type", "name", "product", "item", "area", "location",
            "zone", "territory"] : List String).findSome?
        (fun kw => suitable.2.find? (fun col => strContainsSub col kw)) with
    | some c => some c
    | none =>
      if suitable.2 ≠ [] then suitable.2.head?
      else if df.colNames.any (fun n => n ≠ "") then df.colNames.head?
      else none

/-- Auto-detection of the bar y column (lines 437-455): first numeric column
containing a preferred keyword, else the first numeric column (avoiding the
x column when a second numeric column exists). -/
def barAutoDetectY (df : DataFrame) (y? xAfter : Option String) : Option String :=
  match y? with
  | some y => some y
  | none =>
    let suitable := findSuitableColumns df
    match (["total", "sales", "amount", "revenue", "price", "value", "cost", "sum",
            "count", "quantity"] : List String).findSome?
        (fun kw => suitable.1.find? (fun col => strContainsSub col kw)) with
    | some c => some c
    | none =>
      if suitable.1 ≠ [] then
        if suitable.1.head? = xAfter ∧ 1 < suitable.1.length then suitable.1.get? 1
        else suitable.1.head?
      else none

/-- Lines 463-471: fuzzy-match a truthy hint that names no real column. -/
def barMatchHint (df : DataFrame) (h? : Option String) : Option String :=
  match h? with
  | some s =>
    if s ≠ "" ∧ ¬ df.colNames.contains s then
      match findBestColumnMatch s df.colNames with
      | some m => some m
      | none => some s
    else some s
  | none => none

/-- Column resolution of `generate_bar_chart` (lines 414-492). -/
def barResolve (df : DataFrame) (x? y? : Option String) : Except String (String × String) :=
  let x0 := barAutoDetectX df x?
  let y0 := barAutoDetectY df y? x0
  match barMatchHint df x0, barMatchHint df y0 with
  | some x1, some y1 =>
    let suitable := findSuitableColumns df
    let x2 := if ¬ df.colNames.contains x1 ∧ suitable.2 ≠ [] then suitable.2.headD x1 else x1
    let y2 := if ¬ df.colNames.contains y1 ∧ suitable.1 ≠ [] then suitable.1.headD y1 else y1
    if ¬ df.colNames.contains x2 ∨ ¬ df.colNames.contains y2 then
      .error ("Columns not found in data: x=" ++ x2 ++ ", y=" ++ y2)
    else .ok (x2, y2)
  | _, _ =>
    .error ("Cannot create bar chart: need at least one numeric column. Available columns: " ++
      String.intercalate ", " df.colNames)

/-- `generate_bar_chart(x_column, y_column, top_n)` (lines 394-513).  A
categorical x column is grouped and summed; a numeric x column sorts whole
rows by y instead.  There is no retry around the grouping. -/
def generateBarChart (df : DataFrame) (x? y? : Option String) (topn : Nat) :
    Except String ChartConfig :=
  match barResolve df x? y? with
  | .error e => .error e
  | .ok xy =>
    let mkCfg : List Point → ChartConfig := fun pts =>
      { data := pts, title := xy.2 ++ " by " ++ xy.1, xKey := "name", yKey := "value" }
    if ¬ df.isNumericDtype xy.1 then
      match groupSortTake df xy.1 xy.2 topn with
      | .error e => .error e
      | .ok g => (pointsOfGroups g).map mkCfg
    else
      (rowPoints ((sortRowsDescBySnd (rowsOf df xy.1 xy.2)).take topn)).map mkCfg

/- ---------------- Line chart generation (generate_line_chart) ---------------- -/

/-- `generate_line_chart(x_column, y_column)` (lines 515-575). -/
def generateLineChart (df : DataFrame) (x? y? : Option String) : Except String ChartConfig :=
  let suitable := findSuitableColumns df
  let dateCols := df.colNames.filter (fun c => df.isObjDtype c)
  let x1? : Option String :=
    match x? with
    | some x => some x
    | none =>
      match dateCols.head? with
      | some d => some d
      | none =>
        match suitable.1.head? with
        | some n => some n
        | none => df.colNames.head?
  match x1? with
  | none => .error "IndexError: index 0 is out of bounds"
  | some x =>
    let y1? : Option String :=
      match y? with
      | some y => some y
      | none =>
        if suitable.1 ≠ [] then
          if suitable.1.head? = some x ∧ 1 < suitable.1.length then suitable.1.get? 1
          else suitable.1.head?
        else if 1 < df.cols.length then df.colNames.get? 1
        else none
    match y1? with
    | none =>
      .error ("Cannot create line chart: need at least one numeric column. Available columns: " ++
        String.intercalate ", " df.colNames)
    | some y =>
      if ¬ df.colNames.contains x ∨ ¬ df.colNames.contains y then
        .error ("Columns not found in data: x=" ++ x ++ ", y=" ++ y)
      else
        (rowPoints (sortRowsAscByFst (rowsOf df x y))).map (fun pts =>
          { data := pts, title := y ++ " over " ++ x, xKey := "name", yKey := "value" })

/- ---------------- Scatter chart generation (generate_scatter_chart) ---------------- -/

/-- Build `{x, y}` points from raw rows (`float(row[x])`, `float(row[y])`). -/
def scatterRowPoints (rows : List (Option Cell × Option Cell)) :
    Except String (List ScatterPoint) :=
  mapExcept (fun p =>
    (floatOfOptCell p.1).bind (fun xv =>
      (floatOfOptCell p.2).map (fun yv => ScatterPoint.mk xv yv))) rows

/-- `generate_scatter_chart(x_column, y_column)` (lines 577-625). -/
def generateScatterChart (df : DataFrame) (x? y? : Option String) :
    Except String ChartConfig :=
  let suitable := findSuitableColumns df
  if suitable.1.length < 2 then
    .error ("Scatter chart requires at least 2 numeric columns. Available columns: " ++
      String.intercalate ", " df.colNames)
  else
    let x := match x? with
             | some x => x
             | none => suitable.1.headD ""
    let y := match y? with
             | some y => y
             | none =>
               if 1 < suitable.1.length then (suitable.1.get? 1).getD "" else suitable.1.headD ""
    if ¬ df.colNames.contains x ∨ ¬ df.colNames.contains y then
      .error ("Columns not found in data: x=" ++ x ++ ", y=" ++ y)
    else
      (scatterRowPoints (rowsOf df x y)).map (fun pts =>
        { data := [], scatterData := pts, title := y ++ " vs " ++ x, xKey := "x", yKey := "y",
          xLabel := some x, yLabel := some y, name := some (y ++ " vs " ++ x) })

/- ---------------- Fallback generation (_generate_fallback_chart) ---------------- -/

/-- Lines 684-702: pick a numeric column — first any numeric-dtype column
with positive non-null sum, else any column whose 20-cell sample is > 90%
convertible with positive converted sum. -/
def fallbackNumericCol (df : DataFrame) : Option String :=
  match df.colNames.find?
      (fun c => df.isNumericDtype c && decide (0 < ratSum (df.nonNullRats c))) with
  | some c => some c
  | none =>
    df.colNames.find? (fun c =>
      let sample := (nonNullCells (df.colCells c)).take 20
      decide (sample ≠ [] ∧
        9 * sample.length < 10 * (sample.filterMap toNumericCell).length ∧
        0 < ratSum (sample.filterMap toNumericCell)))

/-- Lines 704-710: pick a categorical column — first non-numeric column
other than the numeric pick, else fall back to the first or second column
when at least two exist. -/
def fallbackCatCol (df : DataFrame) (numCol : Option String) : Option String :=
  match df.colNames.find?
      (fun c => decide (some c ≠ numCol) && ! df.isNumericDtype c) with
  | some c => some c
  | none =>
    if 1 < df.cols.length then
      match df.colNames.head? with
      | some c0 => if some c0 ≠ numCol then some c0 else df.colNames.get? 1
      | none => none
    else none

/-- Lines 736-737 / 752 / 755: the row-index overview data. -/
def rowOverviewData (df : DataFrame) : List Point :=
  (List.range (min 10 df.nrows)).map (fun i => Point.mk ("Row " ++ natToStr i) (some 1))

/-- Lines 717-724: grouped sum of the numeric column by the categorical
column, sorted descending, top 10, cast to points. -/
def fallbackGrouped (df : DataFrame) (catCol numCol : String) : Except String (List Point) :=
  (groupbySum (rowsOf df catCol numCol)).bind (fun g =>
    pointsOfGroups ((sortPairsDesc g).take 10))

/-- Lines 726-732: `nlargest(10, numeric_col)` over row indices; raises on a
non-numeric dtype. -/
def fallbackNlargest (df : DataFrame) (numCol : String) : Except String (List Point) :=
  match df.lookupCol numCol with
  | some (.numeric vs) =>
    let pairs := vs.enum.filterMap (fun p => p.2.map (fun q => (p.1, q)))
    .ok (((List.insertionSort idxValDescRel pairs).take 10).map
      (fun p => Point.mk ("Row " ++ natToStr p.1) (some p.2)))
  | _ => .error "Cannot use method nlargest with this dtype"

/-- Lines 743-750: `value_counts().head(10)` of a column. -/
def valueCountsData (df : DataFrame) (cat : String) : List Point :=
  let cells := nonNullCells (df.colCells cat)
  ((List.insertionSort countDescRel (cells.dedup.map (fun k => (k, cells.count k)))).take 10).map
    (fun p => Point.mk (strOfCell p.1) (some (p.2 : Rat)))

/-- The pie/bar branch of the fallback generator (lines 712-764): always
produces a configuration (every risky step sits in a `try`). -/
def fallbackPieBar (df : DataFrame) : ChartConfig :=
  let numCol := fallbackNumericCol df
  let catCol := fallbackCatCol df numCol
  let dt : List Point × String :=
    match numCol with
    | some n =>
      (match catCol with
       | some c =>
         match fallbackGrouped df c n with
         | .ok d => (d, n ++ " by " ++ c)
         | .error _ => (rowOverviewData df, "Data Overview")
       | none =>
         match fallbackNlargest df n with
         | .ok d => (d, "Top 10 values from " ++ n)
         | .error _ => (rowOverviewData df, "Data Overview"))
    | none =>
      match df.colNames.head? with
      | some c0 => (valueCountsData df c0, "Count by " ++ c0)
      | none => (rowOverviewData df, "Data Overview")
  { data := dt.1, title := dt.2, valueKey := some "value", xKey := "name", yKey := "value" }

/-- `_generate_fallback_chart(chart_type, label_column, value_column)`
(lines 663-793).  The label/value arguments are accepted and ignored, as in
the source.  An empty dataset raises before any branch. -/
def fallbackChart (df : DataFrame) (chartType : String) (_label? _value? : Option String) :
    Except String ChartConfig :=
  if df.nrows = 0 then .error "No data available for chart"
  else if chartType = "pie" ∨ chartType = "bar" then
    .ok (fallbackPieBar df)
  else if chartType = "line" then
    .ok { data := (List.range (min 20 df.nrows)).map
            (fun i => Point.mk (natToStr i) (some (i : Rat))),
          title := "Data Progression", xKey := "name", yKey := "value" }
  else if chartType = "scatter" then
    .ok { data := [],
          scatterData := (List.range (min 50 df.nrows)).map
            (fun (i : Nat) => ScatterPoint.mk (some (i : Rat)) (some ((Nat.mod i 10 : Nat) : Rat))),
          title := "Data Distribution", xKey := "x", yKey := "y",
          xLabel := some "Row Index", yLabel := some "Value", name := some "Row vs Value" }
  else .error ("Unsupported chart type: " ++ chartType)

/- ---------------- Auto generation (auto_generate_chart) ---------------- -/

/-- The `try` body of `auto_generate_chart` (lines 644-656): dispatch on the
lower-cased chart type.  Only the pie generator can modify the dataset. -/
def primaryGenerate (df : DataFrame) (chartType : String) (label? value? : Option String) :
    Except String ChartConfig × DataFrame :=
  if lowerStr chartType = "pie" then generatePieChart df label? value? 10
  else if lowerStr chartType = "bar" then (generateBarChart df label? value? 20, df)
  else if lowerStr chartType = "line" then (generateLineChart df label? value?, df)
  else if lowerStr chartType = "scatter" then (generateScatterChart df label? value?, df)
  else (.error ("Unsupported chart type: " ++ lowerStr chartType), df)

/-- `auto_generate_chart(chart_type, label_column, value_column)`: any
exception from the primary path is caught and the fallback generator runs on
the dataset as the primary path left it. -/
def autoGenerateChart (df : DataFrame) (chartType : String) (label? value? : Option String) :
    Except String ChartConfig × DataFrame :=
  match primaryGenerate df chartType label? value? with
  | (.ok cfg, df') => (.ok cfg, df')
  | (.error _, df') => (fallbackChart df' (lowerStr chartType) label? value?, df')

/- ---------------- State-threading lemmas ---------------- -/

theorem coerce_nrows (df : DataFrame) (c : String) :
    (coerceColumnNumeric df c).nrows = df.nrows := rfl

/-- The pie generator returns the dataset either unchanged or with exactly
one column overwritten by its forced-numeric coercion. -/
theorem pie_snd_cases (df : DataFrame) (l? v? : Option String) (n : Nat) :
    (generatePieChart df l? v? n).2 = df ∨
    ∃ c, (generatePieChart df l? v? n).2 = coerceColumnNumeric df c := by
  unfold generatePieChart
  cases hres : pieResolve df l? v? with
  | error e => exact Or.inl rfl
  | ok lv =>
    dsimp only
    cases hg : groupSortTake df lv.1 lv.2 n with
    | ok g => exact Or.inl rfl
    | error e =>
      cases hg2 : groupSortTake (coerceColumnNumeric df lv.2) lv.1 lv.2 n with
      | ok g => exact Or.inr ⟨lv.2, rfl⟩
      | error e2 => exact Or.inr ⟨lv.2, rfl⟩

theorem pie_snd_nrows (df : DataFrame) (l? v? : Option String) (n : Nat) :
    (generatePieChart df l? v? n).2.nrows = df.nrows := by
  rcases pie_snd_cases df l? v? n with h | ⟨c, h⟩ <;> rw [h]
  rfl

theorem primary_snd_cases (df : DataFrame) (ct : String) (l? v? : Option String) :
    (primaryGenerate df ct l? v?).2 = df ∨
    ∃ c, (primaryGenerate df ct l? v?).2 = coerceColumnNumeric df c := by
  unfold primaryGenerate
  split
  · exact pie_snd_cases _ _ _ _
  · split
    · exact Or.inl rfl
    · split
      · exact Or.inl rfl
      · split
        · exact Or.inl rfl
        · exact Or.inl rfl

theorem primary_snd_nrows (df : DataFrame) (ct : String) (l? v? : Option String) :
    (primaryGenerate df ct l? v?).2.nrows = df.nrows := by
  rcases primary_snd_cases df ct l? v? with h | ⟨c, h⟩ <;> rw [h]
  rfl

theorem auto_snd_eq (df : DataFrame) (ct : String) (l? v? : Option String) :
    (autoGenerateChart df ct l? v?).2 = (primaryGenerate df ct l? v?).2 := by
  unfold autoGenerateChart
  cases hp : primaryGenerate df ct l? v? with
  | mk res df' => cases res <;> rfl

/-- The fallback generator succeeds on every non-empty dataset for each of
the four supported chart types. -/
theorem fallbackChart_ok (df : DataFrame) (t : String) (l? v? : Option String)
    (h0 : ¬ df.nrows = 0)
    (ht : t = "pie" ∨ t = "bar" ∨ t = "line" ∨ t = "scatter") :
    (fallbackChart df t l? v?).isOk = true := by
  unfold fallbackChart
  rw [if_neg h0]
  rcases ht with rfl | rfl | rfl | rfl
  · rw [if_pos (by decide : ("pie" : String) = "pie" ∨ ("pie" : String) = "bar")]
    rfl
  · rw [if_pos (by decide : ("bar" : String) = "pie" ∨ ("bar" : String) = "bar")]
    rfl
  · rw [if_neg (by decide : ¬ (("line" : String) = "pie" ∨ ("line" : String) = "bar")),
      if_pos (by decide : ("line" : String) = "line")]
    rfl
  · rw [if_neg (by decide : ¬ (("scatter" : String) = "pie" ∨ ("scatter" : String) = "bar")),
      if_neg (by decide : ¬ ("scatter" : String) = "line"),
      if_pos (by decide : ("scatter" : String) = "scatter")]
    rfl

/- ---------------- C1 ---------------- -/

/-- C1: on a dataset with at least one row, for a chart type that
lower-cases to one of pie/bar/line/scatter, `auto_generate_chart` always
returns a configuration: any primary failure is absorbed and the fallback
generator's output is returned instead. -/
theorem c1_auto_always_returns_chart (df : DataFrame) (ct : String) (l? v? : Option String)
    (h1 : 1 ≤ df.nrows)
    (h2 : lowerStr ct = "pie" ∨ lowerStr ct = "bar" ∨ lowerStr ct = "line" ∨
      lowerStr ct = "scatter") :
    ((autoGenerateChart df ct l? v?).1).isOk = true := by
  unfold autoGenerateChart
  cases hp : primaryGenerate df ct l? v? with
  | mk res df' =>
    cases res with
    | ok cfg => rfl
    | error e =>
      have hn : df'.nrows = df.nrows := by
        have h := primary_snd_nrows df ct l? v?
        rw [hp] at h
        exact h
      exact fallbackChart_ok df' (lowerStr ct) l? v? (by omega) h2

/-- A one-row dataset with a categorical and a numeric column. -/
def dfRegionSales : DataFrame :=
  { cols := [("region", ColData.obj [some (.str "north")]),
             ("sales", ColData.numeric [some 5])],
    nrows := 1 }

/-- C1 witness at the one-row dataset and the upper-cased type "PIE". -/
theorem c1_witness :
    1 ≤ dfRegionSales.nrows ∧
    (lowerStr "PIE" = "pie" ∨ lowerStr "PIE" = "bar" ∨ lowerStr "PIE" = "line" ∨
      lowerStr "PIE" = "scatter") ∧
    ((autoGenerateChart dfRegionSales "PIE" none none).1).isOk = true :=
  ⟨by decide, by decide,
    c1_auto_always_returns_chart dfRegionSales "PIE" none none (by decide) (by decide)⟩

/- ---------------- C10 ---------------- -/

/-- C10: on a zero-row dataset, the fallback generator raises
"No data available for chart" for every chart type, so when the primary path
fails there, `auto_generate_chart` propagates that error instead of
returning a best-effort chart. -/
theorem c10_empty_dataset_error (df : DataFrame) (ct : String) (l? v? : Option String)
    (h0 : df.nrows = 0) :
    fallbackChart df ct l? v? = .error "No data available for chart" ∧
    ((primaryGenerate df ct l? v?).1.isOk = false →
      (autoGenerateChart df ct l? v?).1 = .error "No data available for chart") := by
  constructor
  · unfold fallbackChart
    rw [if_pos h0]
  · intro hfail
    unfold autoGenerateChart
    cases hp : primaryGenerate df ct l? v? with
    | mk res df' =>
      cases res with
      | ok cfg =>
        rw [hp] at hfail
        exact absurd hfail (by simp [Except.isOk, Except.toBool])
      | error e =>
        have hn : df'.nrows = 0 := by
          have h := primary_snd_nrows df ct l? v?
          rw [hp] at h
          have h2 : df'.nrows = df.nrows := h
          omega
        show fallbackChart df' (lowerStr ct) l? v? = .error "No data available for chart"
        unfold fallbackChart
        rw [if_pos hn]

/-- A zero-row dataset with one (object) column. -/
def dfEmptyA : DataFrame := { cols := [("a", ColData.obj [])], nrows := 0 }

/-- C10 witness: on the empty dataset the pie primary path fails (its value
column stays unresolved) and auto-generation surfaces the fallback's
"No data available for chart" error. -/
theorem c10_witness :
    dfEmptyA.nrows = 0 ∧
    (primaryGenerate dfEmptyA "pie" none none).1.isOk = false ∧
    fallbackChart dfEmptyA "pie" none none = .error "No data available for chart" ∧
    (autoGenerateChart dfEmptyA "pie" none none).1 = .error "No data available for chart" :=
  ⟨rfl, by decide,
    (c10_empty_dataset_error dfEmptyA "pie" none none rfl).1,
    (c10_empty_dataset_error dfEmptyA "pie" none none rfl).2 (by decide)⟩

/- ---------------- C5 ---------------- -/

/-- A dataset whose value column mixes a number and a string in one group:
grouping raises, and one forced-numeric coercion would repair it. -/
def dfMixedVal : DataFrame :=
  { cols := [("cat", ColData.obj [some (.str "a"), some (.str "a")]),
             ("val", ColData.obj [some (.num 1), some (.str "x")])],
    nrows := 2 }

/-- C5 counterexample: on `dfMixedVal` the group-and-sum step fails because
the value column is not numeric, and the coerce-and-retry would succeed (the
bar generator run on the coerced dataset succeeds, as does the pie
generator, which does retry) — yet `generate_bar_chart` reports an error:
bar has no retry. -/
theorem c5_counterexample :
    (generateBarChart dfMixedVal (some "cat") (some "val") 20).isOk = false ∧
    (generateBarChart (coerceColumnNumeric dfMixedVal "val") (some "cat") (some "val") 20).isOk
      = true ∧
    (generatePieChart dfMixedVal (some "cat") (some "val") 10).1.isOk = true := by
  refine ⟨by decide, by decide, by decide⟩

/-- C5 amended: only pie coerces-and-retries.  When pie's first grouping
fails, the dataset comes back with the value column force-coerced and a
second grouping failure makes the generator give up; when bar's grouping
fails, the error propagates unchanged — no coercion, no retry. -/
theorem c5_amended_only_pie_retries (df : DataFrame) :
    (∀ (lv : String × String) (l? v? : Option String) (n : Nat),
      pieResolve df l? v? = .ok lv →
      (groupSortTake df lv.1 lv.2 n).isOk = false →
      (generatePieChart df l? v? n).2 = coerceColumnNumeric df lv.2 ∧
      ((groupSortTake (coerceColumnNumeric df lv.2) lv.1 lv.2 n).isOk = false →
        (generatePieChart df l? v? n).1 =
          .error ("Could not create chart with columns label=" ++ lv.1 ++ ", value=" ++ lv.2))) ∧
    (∀ (xy : String × String) (x? y? : Option String) (n : Nat) (e : String),
      barResolve df x? y? = .ok xy →
      df.isNumericDtype xy.1 = false →
      groupbySum (rowsOf df xy.1 xy.2) = .error e →
      generateBarChart df x? y? n = .error e) := by
  constructor
  · intro lv l? v? n hres hfail
    unfold generatePieChart
    rw [hres]
    dsimp only
    cases hg : groupSortTake df lv.1 lv.2 n with
    | ok g =>
      rw [hg] at hfail
      exact absurd hfail (by simp [Except.isOk, Except.toBool])
    | error e =>
      cases hg2 : groupSortTake (coerceColumnNumeric df lv.2) lv.1 lv.2 n with
      | ok g =>
        refine ⟨rfl, ?_⟩
        intro hfail2
        exact absurd hfail2 (by simp [Except.isOk, Except.toBool])
      | error e2 => exact ⟨rfl, fun _ => rfl⟩
  · intro xy x? y? n e hres hnotnum hgroup
    unfold generateBarChart
    rw [hres]
    dsimp only
    rw [if_pos (by simp [hnotnum])]
    rw [show groupSortTake df xy.1 xy.2 n = .error e by
      unfold groupSortTake
      rw [hgroup]
      rfl]

/-- C5 amended witness at `dfMixedVal`. -/
theorem c5_amended_witness :
    pieResolve dfMixedVal (some "cat") (some "val") = .ok ("cat", "val") ∧
    (groupSortTake dfMixedVal "cat" "val" 10).isOk = false ∧
    (generatePieChart dfMixedVal (some "cat") (some "val") 10).2 =
      coerceColumnNumeric dfMixedVal "val" ∧
    barResolve dfMixedVal (some "cat") (some "val") = .ok ("cat", "val") ∧
    dfMixedVal.isNumericDtype "cat" = false ∧
    groupbySum (rowsOf dfMixedVal "cat" "val") = .error "unsupported operand type for +" ∧
    generateBarChart dfMixedVal (some "cat") (some "val") 20 =
      .error "unsupported operand type for +" :=
  ⟨by decide, by decide,
    ((c5_amended_only_pie_retries dfMixedVal).1 ("cat", "val") (some "cat") (some "val") 10
      (by decide) (by decide)).1,
    by decide, by decide, by decide,
    (c5_amended_only_pie_retries dfMixedVal).2 ("cat", "val") (some "cat") (some "val") 20
      "unsupported operand type for +" (by decide) (by decide) (by decide)⟩

/- ---------------- C9 ---------------- -/

/-- C9 counterexample: chart generation is not free of effects on the loaded
dataset — pie generation on `dfMixedVal` returns a changed dataset (the
value column has been overwritten in place by its forced-numeric coercion). -/
theorem c9_counterexample :
    (generatePieChart dfMixedVal (some "cat") (some "val") 10).2 ≠ dfMixedVal := by
  decide

/-- C9 amended: generation leaves the dataset unchanged except on pie's
coerce-and-retry path, which overwrites one column with its forced-numeric
coercion (bar, line, scatter and the fallback never modify it); whenever the
dataset comes back unchanged, rerunning the identical auto-generation
returns the identical result. -/
theorem c9_amended_frame (df : DataFrame) (ct : String) (l? v? : Option String) (n : Nat) :
    ((generatePieChart df l? v? n).2 = df ∨
      ∃ c, (generatePieChart df l? v? n).2 = coerceColumnNumeric df c) ∧
    ((autoGenerateChart df ct l? v?).2 = df ∨
      ∃ c, (autoGenerateChart df ct l? v?).2 = coerceColumnNumeric df c) ∧
    ((autoGenerateChart df ct l? v?).2 = df →
      autoGenerateChart (autoGenerateChart df ct l? v?).2 ct l? v? =
        autoGenerateChart df ct l? v?) := by
  refine ⟨pie_snd_cases df l? v? n, ?_, ?_⟩
  · rw [auto_snd_eq]
    exact primary_snd_cases df ct l? v?
  · intro h
    rw [h]

/-- C9 amended witness: a run that leaves the dataset unchanged, rerun with
an identical result. -/
theorem c9_amended_witness :
    (autoGenerateChart dfRegionSales "pie" none none).2 = dfRegionSales ∧
    autoGenerateChart (autoGenerateChart dfRegionSales "pie" none none).2 "pie" none none =
      autoGenerateChart dfRegionSales "pie" none none :=
  ⟨by decide,
    (c9_amended_frame dfRegionSales "pie" none none 10).2.2 (by decide)⟩

/- ---------------- Lemmas about mapExcept, sums and lookups ---------------- -/

theorem mapExcept_ok_length {α β : Type} (f : α → Except String β) :
    ∀ (l : List α) (out : List β), mapExcept f l = .ok out → out.length = l.length := by
  intro l
  induction l with
  | nil =>
    intro out h
    simp only [mapExcept] at h
    injection h with h2
    rw [← h2]
    rfl
  | cons a l ih =>
    intro out h
    simp only [mapExcept] at h
    cases hfa : f a with
    | error e => rw [hfa] at h; simp at h
    | ok b =>
      rw [hfa] at h
      cases hml : mapExcept f l with
      | error e => rw [hml] at h; simp at h
      | ok bs =>
        rw [hml] at h
        injection h with h2
        rw [← h2]
        simp [ih bs hml]

theorem mapExcept_ok_forall2 {α β : Type} (f : α → Except String β) :
    ∀ (l : List α) (out : List β), mapExcept f l = .ok out →
      List.Forall₂ (fun a b => f a = .ok b) l out := by
  intro l
  induction l with
  | nil =>
    intro out h
    simp only [mapExcept] at h
    injection h with h2
    rw [← h2]
    exact List.Forall₂.nil
  | cons a l ih =>
    intro out h
    simp only [mapExcept] at h
    cases hfa : f a with
    | error e => rw [hfa] at h; simp at h
    | ok b =>
      rw [hfa] at h
      cases hml : mapExcept f l with
      | error e => rw [hml] at h; simp at h
      | ok bs =>
        rw [hml] at h
        injection h with h2
        rw [← h2]
        exact List.Forall₂.cons hfa (ih bs hml)

theorem forall2_mem_right {α β : Type} {R : α → β → Prop} :
    ∀ {l1 : List α} {l2 : List β}, List.Forall₂ R l1 l2 → ∀ b ∈ l2, ∃ a ∈ l1, R a b := by
  intro l1 l2 h
  induction h with
  | nil => intro b hb; cases hb
  | cons hR hf ih =>
    intro b hb
    rcases List.mem_cons.mp hb with rfl | hb2
    · exact ⟨_, List.mem_cons_self _ _, hR⟩
    · obtain ⟨a, ha, hRa⟩ := ih b hb2
      exact ⟨a, List.mem_cons_of_mem _ ha, hRa⟩

theorem pairwise_transport {α β : Type} {R : α → β → Prop} {P : α → α → Prop}
    {Q : β → β → Prop} :
    ∀ {l1 : List α} {l2 : List β}, List.Forall₂ R l1 l2 → l1.Pairwise P →
      (∀ a b a2 b2, R a a2 → R b b2 → P a b → Q a2 b2) → l2.Pairwise Q := by
  intro l1 l2 hf
  induction hf with
  | nil => intro _ _; exact List.Pairwise.nil
  | cons hR hf2 ih =>
    intro hp himp
    rw [List.pairwise_cons] at hp
    refine List.Pairwise.cons ?_ (ih hp.2 himp)
    intro b2 hb2
    obtain ⟨b, hb, hRb⟩ := forall2_mem_right hf2 b2 hb2
    exact himp _ _ _ _ hR hRb (hp.1 b hb)

theorem foldlM_cellAdd_num :
    ∀ (l : List Cell) (acc : Cell), (∃ q, acc = Cell.num q) →
      (∀ c ∈ l, ∃ q, c = Cell.num q) → ∀ s, l.foldlM cellAdd acc = .ok s →
      ∃ q, s = Cell.num q := by
  intro l
  induction l with
  | nil =>
    intro acc hacc _ s h
    rw [List.foldlM_nil] at h
    injection h with h2
    rw [← h2]
    exact hacc
  | cons c l ih =>
    intro acc hacc hl s h
    rw [List.foldlM_cons] at h
    obtain ⟨qa, rfl⟩ := hacc
    obtain ⟨qc, rfl⟩ := hl c (List.mem_cons_self _ _)
    exact ih (Cell.num (ratAdd qa qc)) ⟨_, rfl⟩ (fun x hx => hl x (List.mem_cons_of_mem _ hx)) s h

theorem cellSum_num (l : List Cell) (hl : ∀ c ∈ l, ∃ q, c = Cell.num q) (s : Cell)
    (hs : cellSum l = .ok s) : ∃ q, s = Cell.num q := by
  cases l with
  | nil =>
    simp only [cellSum] at hs
    injection hs with h2
    exact ⟨0, h2.symm⟩
  | cons x xs =>
    simp only [cellSum] at hs
    exact foldlM_cellAdd_num xs x (hl x (List.mem_cons_self _ _))
      (fun c hc => hl c (List.mem_cons_of_mem _ hc)) s hs

/-- A successful association-list lookup returns a stored pair. -/
theorem lookup_mem_pair {β : Type} : ∀ (l : List (String × β)) (a : String) (b : β),
    l.lookup a = some b → (a, b) ∈ l := by
  intro l
  induction l with
  | nil => intro a b h; simp [List.lookup] at h
  | cons p l ih =>
    intro a b h
    simp only [List.lookup] at h
    cases hab : (a == p.1) with
    | true =>
      rw [hab] at h
      injection h with h2
      have ha : a = p.1 := eq_of_beq hab
      have : (a, b) = p := by
        rw [ha, ← h2]
      rw [this]
      exact List.mem_cons_self _ _
    | false =>
      rw [hab] at h
      exact List.mem_cons_of_mem _ (ih a b h)

/-- A key among the column names has a successful lookup. -/
theorem mem_lookup_isSome {β : Type} : ∀ (l : List (String × β)) (a : String),
    a ∈ l.map Prod.fst → ∃ b, l.lookup a = some b := by
  intro l
  induction l with
  | nil => intro a h; cases h
  | cons p l ih =>
    intro a h
    simp only [List.lookup]
    cases hab : (a == p.1) with
    | true => exact ⟨p.2, rfl⟩
    | false =>
      rcases List.mem_cons.mp h with h1 | h2
      · rw [h1] at hab
        simp at hab
      · exact ih a h2

/-- With each column one cell per row, a named column has `nrows` cells. -/
theorem colCells_length (df : DataFrame) (c : String) (hc : c ∈ df.colNames)
    (hWF : df.WellFormed) : (df.colCells c).length = df.nrows := by
  obtain ⟨d, hd⟩ := mem_lookup_isSome df.cols c hc
  have hmem : (c, d) ∈ df.cols := lookup_mem_pair df.cols c d hd
  have hsize := hWF (c, d) hmem
  unfold DataFrame.colCells DataFrame.lookupCol
  rw [hd]
  cases d with
  | numeric vs => simpa [ColData.size] using hsize
  | obj vs => simpa [ColData.size] using hsize

/-- Cells of a numeric-dtype column are numbers. -/
theorem colCells_num (df : DataFrame) (v : String) (hv : df.isNumericDtype v = true) :
    ∀ oc ∈ df.colCells v, ∀ c, oc = some c → ∃ q, c = Cell.num q := by
  intro oc hoc c hc
  unfold DataFrame.isNumericDtype at hv
  unfold DataFrame.colCells at hoc
  cases hl : df.lookupCol v with
  | none => rw [hl] at hv; exact absurd hv (by simp)
  | some d =>
    cases d with
    | numeric vs =>
      rw [hl] at hoc
      obtain ⟨o, ho, hom⟩ := List.mem_map.mp hoc
      cases o with
      | none => rw [← hom] at hc; cases hc
      | some q =>
        rw [← hom] at hc
        injection hc with h2
        exact ⟨q, h2.symm⟩
    | obj vs => rw [hl] at hv; exact absurd hv (by simp)

/-- Every value collected into a group is a cell of the value column. -/
theorem groupValues_num (df : DataFrame) (l v : String) (hv : df.isNumericDtype v = true)
    (k : Cell) : ∀ c ∈ groupValues (rowsOf df l v) k, ∃ q, c = Cell.num q := by
  intro c hc
  unfold groupValues at hc
  obtain ⟨p, hp, hfp⟩ := List.mem_filterMap.mp hc
  have hp2 : p.2 = some c := by
    by_cases h : p.1 = some k
    · rw [if_pos h] at hfp; exact hfp
    · rw [if_neg h] at hfp; cases hfp
  obtain ⟨p1, p2⟩ := p
  have hmem : p2 ∈ df.colCells v := (List.of_mem_zip hp).2
  exact colCells_num df v hv p2 hmem c hp2

/- ---------------- Coercion preserves shape ---------------- -/

theorem coerce_colNames (df : DataFrame) (c : String) :
    (coerceColumnNumeric df c).colNames = df.colNames := by
  show (df.cols.map _).map Prod.fst = df.cols.map Prod.fst
  rw [List.map_map]
  apply List.map_congr_left
  intro p _
  by_cases hp : p.1 = c
  · simp [hp]
  · simp [hp]

theorem coerce_wellFormed (df : DataFrame) (c : String) (h : df.WellFormed) :
    (coerceColumnNumeric df c).WellFormed := by
  intro p hp
  unfold coerceColumnNumeric at hp
  simp only [List.mem_map] at hp
  obtain ⟨p0, hp0, hrep⟩ := hp
  have hs := h p0 hp0
  by_cases hc : p0.1 = c
  · rw [if_pos hc] at hrep
    rw [← hrep]
    show ColData.size p0.2.coerceNumeric = (coerceColumnNumeric df c).nrows
    have : ColData.size p0.2.coerceNumeric = ColData.size p0.2 := by
      cases p0.2 <;> simp [ColData.coerceNumeric, ColData.size]
    rw [this]
    exact hs
  · rw [if_neg hc] at hrep
    rw [← hrep]
    exact hs

/- ---------------- Lemmas about the grouping pipeline ---------------- -/

theorem except_map_ok {α β : Type} (f : α → β) (x : Except String α) (y : β)
    (h : x.map f = .ok y) : ∃ a, x = .ok a ∧ y = f a := by
  cases x with
  | error e => simp [Except.map] at h
  | ok a =>
    refine ⟨a, rfl, ?_⟩
    simp [Except.map] at h
    exact h.symm

theorem groupbySum_ok_spec (pairs : List (Option Cell × Option Cell))
    (g0 : List (Cell × Cell)) (h : groupbySum pairs = .ok g0) :
    g0.length = ((pairs.filterMap Prod.fst).dedup).length ∧
    ∀ p ∈ g0, ∃ k, k ∈ (pairs.filterMap Prod.fst).dedup ∧ p.1 = k ∧
      cellSum (groupValues pairs k) = .ok p.2 := by
  unfold groupbySum at h
  constructor
  · exact mapExcept_ok_length _ _ _ h
  · intro p hp
    have hf := mapExcept_ok_forall2 _ _ _ h
    obtain ⟨k, hk, hR⟩ := forall2_mem_right hf p hp
    obtain ⟨s, hs, hps⟩ := except_map_ok _ _ _ hR
    refine ⟨k, hk, ?_, ?_⟩
    · rw [hps]
    · rw [hps]
      exact hs

theorem groupSortTake_spec (df : DataFrame) (l v : String) (n : Nat)
    (g : List (Cell × Cell)) (hWF : df.WellFormed) (hl : l ∈ df.colNames)
    (hv : v ∈ df.colNames) (hg : groupSortTake df l v n = .ok g) :
    g.length ≤ n ∧
    (((df.colCells l).filterMap id).dedup.length ≤ n →
      g.length = ((df.colCells l).filterMap id).dedup.length) ∧
    (df.isNumericDtype v = true →
      g.Pairwise pairDescRel ∧ ∀ p ∈ g, ∃ q, p.2 = Cell.num q) := by
  unfold groupSortTake at hg
  obtain ⟨g0, hg0, hgeq⟩ := except_map_ok _ _ _ hg
  obtain ⟨hlen0, hmem0⟩ := groupbySum_ok_spec _ _ hg0
  have hfst : (rowsOf df l v).filterMap Prod.fst = (df.colCells l).filterMap id := by
    unfold rowsOf
    have hle : (df.colCells l).length ≤ (df.colCells v).length := by
      rw [colCells_length df l hl hWF, colCells_length df v hv hWF]
    calc ((df.colCells l).zip (df.colCells v)).filterMap Prod.fst
        = (((df.colCells l).zip (df.colCells v)).map Prod.fst).filterMap id := by
          simp [List.filterMap_map, Function.id_comp]
      _ = (df.colCells l).filterMap id := by rw [List.map_fst_zip _ _ hle]
  have hslen : (sortPairsDesc g0).length = g0.length := by
    unfold sortPairsDesc
    exact List.length_insertionSort _ _
  have hglen : g.length = min n g0.length := by
    rw [hgeq, List.length_take, hslen]
  refine ⟨?_, ?_, ?_⟩
  · rw [hglen]
    exact min_le_left _ _
  · intro hK
    have hg0len : g0.length = ((df.colCells l).filterMap id).dedup.length := by
      rw [hlen0, hfst]
    rw [hglen, hg0len]
    omega
  · intro hnum
    constructor
    · have hsorted : (sortPairsDesc g0).Pairwise pairDescRel := by
        unfold sortPairsDesc
        exact List.sorted_insertionSort pairDescRel g0
      rw [hgeq]
      exact List.Pairwise.sublist (List.take_sublist _ _) hsorted
    · intro p hp
      have hpg0 : p ∈ g0 := by
        rw [hgeq] at hp
        have h1 : p ∈ sortPairsDesc g0 := List.take_subset _ _ hp
        unfold sortPairsDesc at h1
        exact (List.mem_insertionSort _).mp h1
      obtain ⟨k, hk, hpk, hsum⟩ := hmem0 p hpg0
      exact cellSum_num _ (groupValues_num df l v hnum k) _ hsum

theorem pointsOfGroups_length (g : List (Cell × Cell)) (pts : List Point)
    (h : pointsOfGroups g = .ok pts) : pts.length = g.length :=
  mapExcept_ok_length _ _ _ h

theorem pointsOfGroups_desc (g : List (Cell × Cell)) (pts : List Point)
    (h : pointsOfGroups g = .ok pts) (hsort : g.Pairwise pairDescRel)
    (hnum : ∀ p ∈ g, ∃ q, p.2 = Cell.num q) :
    pts.Pairwise (fun p q => ∃ a b, p.value = some a ∧ q.value = some b ∧ b ≤ a) := by
  have hf := mapExcept_ok_forall2 _ _ _ h
  have hsort2 : g.Pairwise (fun a b => pairDescRel a b ∧
      (∃ qa, a.2 = Cell.num qa) ∧ ∃ qb, b.2 = Cell.num qb) := by
    refine hsort.imp_of_mem ?_
    intro a b ha hb hR
    exact ⟨hR, hnum a ha, hnum b hb⟩
  refine pairwise_transport hf hsort2 ?_
  intro a b a2 b2 hRa hRb hP
  obtain ⟨hdesc, ⟨qa, hqa⟩, ⟨qb, hqb⟩⟩ := hP
  rw [hqa] at hRa
  rw [hqb] at hRb
  have ha2 : a2 = Point.mk (strOfCell a.1) (some qa) := by
    simp [floatOfCell, floatOfOptCell, Except.map] at hRa
    exact hRa.symm
  have hb2 : b2 = Point.mk (strOfCell b.1) (some qb) := by
    simp [floatOfCell, floatOfOptCell, Except.map] at hRb
    exact hRb.symm
  refine ⟨qa, qb, by rw [ha2], by rw [hb2], ?_⟩
  unfold pairDescRel at hdesc
  rw [hqa, hqb] at hdesc
  simpa [cellLeB] using hdesc

/- ---------------- Lemmas about column resolution ---------------- -/

theorem findSome?_mem {α β : Type} (f : α → Option β) :
    ∀ (l : List α) (b : β), l.findSome? f = some b → ∃ a ∈ l, f a = some b := by
  intro l
  induction l with
  | nil => intro b h; simp [List.findSome?] at h
  | cons a l ih =>
    intro b h
    rw [List.findSome?] at h
    cases hfa : f a with
    | some c =>
      rw [hfa] at h
      dsimp only at h
      injection h with h2
      exact ⟨a, List.mem_cons_self _ _, by rw [hfa, h2]⟩
    | none =>
      rw [hfa] at h
      dsimp only at h
      obtain ⟨x, hx, hfx⟩ := ih b h
      exact ⟨x, List.mem_cons_of_mem _ hx, hfx⟩

theorem findBest_mem (t : String) (cols : List String) (c : String)
    (h : findBestColumnMatch t cols = some c) : c ∈ cols := by
  unfold findBestColumnMatch at h
  dsimp only at h
  cases h1 : directStep (trimStr (lowerStr t)) cols with
  | some d =>
    rw [h1] at h
    simp only [Option.some_orElse] at h
    injection h with h2
    rw [← h2]
    exact List.mem_of_find?_eq_some h1
  | none =>
    rw [h1] at h
    simp only [Option.none_orElse] at h
    cases h2 : substringStep (trimStr (lowerStr t)) cols with
    | some d =>
      rw [h2] at h
      simp only [Option.some_orElse] at h
      injection h with h3
      rw [← h3]
      exact List.mem_of_find?_eq_some h2
    | none =>
      rw [h2] at h
      simp only [Option.none_orElse] at h
      unfold keywordStep at h
      cases h3 : semanticMappings.lookup (trimStr (lowerStr t)) with
      | none => rw [h3] at h; cases h
      | some kws =>
        rw [h3] at h
        obtain ⟨kw, _, hkw⟩ := findSome?_mem _ kws c h
        exact List.mem_of_find?_eq_some hkw

theorem trueNumericCols_subset (df : DataFrame) :
    ∀ c ∈ trueNumericCols df, c ∈ df.colNames := fun c hc =>
  numericColsBroad_subset df c (List.mem_of_mem_filter hc)

theorem pieValueReplacement_mem (df : DataFrame) (m : String)
    (h : pieValueReplacement df = some m) : m ∈ df.colNames := by
  unfold pieValueReplacement at h
  obtain ⟨target, _, htarget⟩ := findSome?_mem _ _ m h
  cases h2 : findBestColumnMatch target df.colNames with
  | none => rw [h2] at htarget; cases htarget
  | some m2 =>
    rw [h2] at htarget
    dsimp only at htarget
    by_cases hcond : (findSuitableColumns df).1.contains m2 = true ∧ df.isNumericDtype m2 = true
    · rw [if_pos hcond] at htarget
      injection htarget with h3
      rw [← h3]
      exact findBest_mem target df.colNames m2 h2
    · rw [if_neg hcond] at htarget
      cases htarget

theorem pieValueFixup_mem (df : DataFrame) (v : String) (hv : v ∈ df.colNames) :
    pieValueFixup df v ∈ df.colNames := by
  unfold pieValueFixup
  by_cases h1 : df.isNumericDtype v = true
  · rw [if_pos h1]
    exact hv
  · rw [if_neg h1]
    dsimp only
    have hv1 : (pieValueReplacement df).getD v ∈ df.colNames := by
      cases hrep : pieValueReplacement df with
      | none => simpa using hv
      | some m => simpa using pieValueReplacement_mem df m hrep
    by_cases h2 : df.isNumericDtype ((pieValueReplacement df).getD v) = true
    · rw [if_pos h2]
      exact hv1
    · rw [if_neg h2]
      cases h3 : (findSuitableColumns df).1.find? (fun c => df.isNumericDtype c) with
      | none => simpa using hv1
      | some c =>
        have hmem : c ∈ (findSuitableColumns df).1 := List.mem_of_find?_eq_some h3
        simpa using trueNumericCols_subset df c hmem

theorem pieResolve_ok_mem (df : DataFrame) (l? v? : Option String) (lv : String × String)
    (h : pieResolve df l? v? = .ok lv) : lv.1 ∈ df.colNames ∧ lv.2 ∈ df.colNames := by
  unfold pieResolve at h
  dsimp only at h
  cases h1 : matchHintToColumn df (pieAutoDetectLabel df l?) with
  | error e => rw [h1] at h; simp at h
  | ok l1 =>
    rw [h1] at h
    cases h2 : matchHintToColumn df
        (pieAutoDetectValue df v? (pieAutoDetectLabel df l?)) with
    | error e => rw [h2] at h; simp at h
    | ok v1 =>
      rw [h2] at h
      dsimp only at h
      cases h3 : pieLogGate df (pieRematch df l1 v1).1 (pieRematch df l1 v1).2 with
      | error e => rw [h3] at h; simp at h
      | ok u =>
        rw [h3] at h
        cases h4 : pieNoneGate df (pieRematch df l1 v1).1 (pieRematch df l1 v1).2 with
        | error e => rw [h4] at h; simp at h
        | ok lv3 =>
          rw [h4] at h
          dsimp only at h
          by_cases h5 : ¬ df.colNames.contains lv3.1 = true ∨ ¬ df.colNames.contains lv3.2 = true
          · rw [if_pos h5] at h
            simp at h
          · rw [if_neg h5] at h
            injection h with h6
            push_neg at h5
            have hl3 : lv3.1 ∈ df.colNames := List.elem_iff.mp h5.1
            have hv3 : lv3.2 ∈ df.colNames := List.elem_iff.mp h5.2
            rw [← h6]
            exact ⟨hl3, pieValueFixup_mem df lv3.2 hv3⟩

/- ---------------- C7 ---------------- -/

/-- A dataset whose value column survives loading as object dtype (its
20-cell sample is only 2/3 convertible) while every per-group concatenated
sum still parses as a float: group sums are the strings "1e5" and "9",
which sort descending as strings ("9" first) but cast to the ascending
floats 9 and 100000. -/
def dfStrSums : DataFrame :=
  { cols := [("lbl", ColData.obj [some (.str "a"), some (.str "a"), some (.str "b")]),
             ("v", ColData.obj [some (.str "1"), some (.str "e5"), some (.str "9")])],
    nrows := 3 }

/-- C7 counterexample: on `dfStrSums` (well-formed, grouping applied, all
groups kept) the returned pie configuration's values are [9, 100000] — the
second strictly exceeds the first, so the output is not ordered descending
by summed value.  The sort ran on the string sums, not the emitted floats. -/
theorem c7_counterexample :
    (generatePieChart dfStrSums (some "lbl") (some "v") 10).1.map
        (fun c => c.data.map Point.value) = .ok [some 9, some 100000] ∧
    (9 : Rat) < 100000 ∧ dfStrSums.WellFormed := by
  refine ⟨by decide, by decide, by decide⟩

/-- C7 amended: whenever pie or bar generation applies grouping on a
well-formed dataset, the returned configuration's data has length at most
the type's cap (10 for pie, 20 for bar); when fewer distinct non-missing
label values than the cap exist, no group is dropped (one point per distinct
label); and the points are ordered descending by summed value whenever the
value column actually grouped has numeric dtype (string-valued columns sum
by concatenation and sort lexicographically, so their emitted floats need
not descend, as `c7_counterexample` shows). -/
theorem c7_amended_topn_cap (df : DataFrame) (hWF : df.WellFormed) :
    (∀ (l? v? : Option String) (lv : String × String) (cfg : ChartConfig) (df' : DataFrame),
      pieResolve df l? v? = .ok lv →
      generatePieChart df l? v? 10 = (.ok cfg, df') →
      cfg.data.length ≤ 10 ∧
      (((df'.colCells lv.1).filterMap id).dedup.length ≤ 10 →
        cfg.data.length = ((df'.colCells lv.1).filterMap id).dedup.length) ∧
      (df'.isNumericDtype lv.2 = true →
        cfg.data.Pairwise (fun p q => ∃ a b, p.value = some a ∧ q.value = some b ∧ b ≤ a))) ∧
    (∀ (x? y? : Option String) (xy : String × String) (cfg : ChartConfig),
      barResolve df x? y? = .ok xy →
      df.isNumericDtype xy.1 = false →
      generateBarChart df x? y? 20 = .ok cfg →
      cfg.data.length ≤ 20 ∧
      (((df.colCells xy.1).filterMap id).dedup.length ≤ 20 →
        cfg.data.length = ((df.colCells xy.1).filterMap id).dedup.length) ∧
      (df.isNumericDtype xy.2 = true →
        cfg.data.Pairwise (fun p q => ∃ a b, p.value = some a ∧ q.value = some b ∧ b ≤ a))) := by
  have hcfg_spec : ∀ (dfx : DataFrame) (l v : String) (n : Nat) (g : List (Cell × Cell))
      (pts : List Point), dfx.WellFormed → l ∈ dfx.colNames → v ∈ dfx.colNames →
      groupSortTake dfx l v n = .ok g → pointsOfGroups g = .ok pts →
      pts.length ≤ n ∧
      (((dfx.colCells l).filterMap id).dedup.length ≤ n →
        pts.length = ((dfx.colCells l).filterMap id).dedup.length) ∧
      (dfx.isNumericDtype v = true →
        pts.Pairwise (fun p q => ∃ a b, p.value = some a ∧ q.value = some b ∧ b ≤ a)) := by
    intro dfx l v n g pts hWFx hl hv hg hpts
    obtain ⟨hle, hcount, hnum⟩ := groupSortTake_spec dfx l v n g hWFx hl hv hg
    have hplen := pointsOfGroups_length g pts hpts
    refine ⟨by omega, ?_, ?_⟩
    · intro hK
      rw [hplen]
      exact hcount hK
    · intro hnumv
      obtain ⟨hsort, hnums⟩ := hnum hnumv
      exact pointsOfGroups_desc g pts hpts hsort hnums
  constructor
  · intro l? v? lv cfg df' hres hgen
    obtain ⟨hl, hv⟩ := pieResolve_ok_mem df l? v? lv hres
    unfold generatePieChart at hgen
    rw [hres] at hgen
    dsimp only at hgen
    cases hg : groupSortTake df lv.1 lv.2 10 with
    | ok g =>
      rw [hg] at hgen
      have hcfg : pieConfigOfGroups g lv.1 lv.2 = .ok cfg := congrArg Prod.fst hgen
      have hdf : df = df' := congrArg Prod.snd hgen
      subst hdf
      unfold pieConfigOfGroups at hcfg
      obtain ⟨pts, hpts, hcfg2⟩ := except_map_ok _ _ _ hcfg
      have hdata : cfg.data = pts := by rw [hcfg2]
      rw [hdata]
      exact hcfg_spec df lv.1 lv.2 10 g pts hWF hl hv hg hpts
    | error e =>
      rw [hg] at hgen
      dsimp only at hgen
      cases hg2 : groupSortTake (coerceColumnNumeric df lv.2) lv.1 lv.2 10 with
      | ok g =>
        rw [hg2] at hgen
        have hcfg : pieConfigOfGroups g lv.1 lv.2 = .ok cfg := congrArg Prod.fst hgen
        have hdf : coerceColumnNumeric df lv.2 = df' := congrArg Prod.snd hgen
        subst hdf
        unfold pieConfigOfGroups at hcfg
        obtain ⟨pts, hpts, hcfg2⟩ := except_map_ok _ _ _ hcfg
        have hdata : cfg.data = pts := by rw [hcfg2]
        rw [hdata]
        refine hcfg_spec (coerceColumnNumeric df lv.2) lv.1 lv.2 10 g pts
          (coerce_wellFormed df lv.2 hWF) ?_ ?_ hg2 hpts
        · rw [coerce_colNames]
          exact hl
        · rw [coerce_colNames]
          exact hv
      | error e2 =>
        rw [hg2] at hgen
        have hcfg := congrArg Prod.fst hgen
        simp at hcfg
  · intro x? y? xy cfg hres hnotnum hgen
    have hxy : xy.1 ∈ df.colNames ∧ xy.2 ∈ df.colNames := by
      unfold barResolve at hres
      dsimp only at hres
      cases hx1 : barMatchHint df (barAutoDetectX df x?) with
      | none => rw [hx1] at hres; simp at hres
      | some x1 =>
        rw [hx1] at hres
        cases hy1 : barMatchHint df
            (barAutoDetectY df y? (barAutoDetectX df x?)) with
        | none => rw [hy1] at hres; simp at hres
        | some y1 =>
          rw [hy1] at hres
          dsimp only at hres
          set x2 := if ¬ df.colNames.contains x1 = true ∧ (findSuitableColumns df).2 ≠ []
            then (findSuitableColumns df).2.headD x1 else x1 with hx2
          set y2 := if ¬ df.colNames.contains y1 = true ∧ (findSuitableColumns df).1 ≠ []
            then (findSuitableColumns df).1.headD y1 else y1 with hy2
          by_cases h5 : ¬ df.colNames.contains x2 = true ∨ ¬ df.colNames.contains y2 = true
          · rw [if_pos h5] at hres
            simp at hres
          · rw [if_neg h5] at hres
            injection hres with h6
            push_neg at h5
            rw [← h6]
            exact ⟨List.elem_iff.mp h5.1, List.elem_iff.mp h5.2⟩
    unfold generateBarChart at hgen
    rw [hres] at hgen
    dsimp only at hgen
    rw [if_pos (by simp [hnotnum])] at hgen
    cases hg : groupSortTake df xy.1 xy.2 20 with
    | error e => rw [hg] at hgen; simp at hgen
    | ok g =>
      rw [hg] at hgen
      dsimp only at hgen
      obtain ⟨pts, hpts, hcfg2⟩ := except_map_ok _ _ _ hgen
      have hdata : cfg.data = pts := by rw [hcfg2]
      rw [hdata]
      exact hcfg_spec df xy.1 xy.2 20 g pts hWF hxy.1 hxy.2 hg hpts

/-- A well-formed dataset with two label groups and numeric values for the
C7 witness. -/
def dfTwoGroups : DataFrame :=
  { cols := [("region", ColData.obj [some (.str "n"), some (.str "s"), some (.str "n")]),
             ("sales", ColData.numeric [some 3, some 7, some 2])],
    nrows := 3 }

/-- C7 amended witness: pie generation on `dfTwoGroups` (2 distinct labels,
numeric values) keeps both groups, stays under the cap, and emits
descending values [7, 5]. -/
theorem c7_amended_witness :
    dfTwoGroups.WellFormed ∧
    pieResolve dfTwoGroups (some "region") (some "sales") = .ok ("region", "sales") ∧
    generatePieChart dfTwoGroups (some "region") (some "sales") 10 =
      (.ok { data := [⟨"s", some 7⟩, ⟨"n", some 5⟩], title := "sales by region",
             valueKey := some "value", xKey := "name", yKey := "value" }, dfTwoGroups) ∧
    (({ data := [⟨"s", some 7⟩, ⟨"n", some 5⟩], title := "sales by region",
        valueKey := some "value", xKey := "name", yKey := "value" } : ChartConfig).data.length ≤ 10 ∧
      ((((dfTwoGroups.colCells "region").filterMap id).dedup.length ≤ 10 →
        ({ data := [⟨"s", some 7⟩, ⟨"n", some 5⟩], title := "sales by region",
           valueKey := some "value", xKey := "name", yKey := "value" } : ChartConfig).data.length =
          ((dfTwoGroups.colCells "region").filterMap id).dedup.length)) ∧
      (dfTwoGroups.isNumericDtype "sales" = true →
        ({ data := [⟨"s", some 7⟩, ⟨"n", some 5⟩], title := "sales by region",
           valueKey := some "value", xKey := "name", yKey := "value" } : ChartConfig).data.Pairwise
          (fun p q => ∃ a b, p.value = some a ∧ q.value = some b ∧ b ≤ a))) :=
  ⟨by decide, by decide, by decide,
    (c7_amended_topn_cap dfTwoGroups (by decide)).1 (some "region") (some "sales")
      ("region", "sales")
      { data := [⟨"s", some 7⟩, ⟨"n", some 5⟩], title := "sales by region",
        valueKey := some "value", xKey := "name", yKey := "value" }
      dfTwoGroups (by decide) (by decide)⟩

end ChartGen
